import Mathlib

/-!
Verification development for the GLM-5 router proxy (`proxy.py`).

The proxy routes chat-completion requests by model tier, rewrites and
sanitizes payloads for the secondary (Z.AI) provider, and falls back to the
primary (Anthropic) provider on incompatibility or failure.  We embed the
JSON payload manipulation (tier detection, compatibility checks,
sanitization), the per-tier circuit breaker, and the retry / fallback loop
of `proxy_messages` as pure Lean functions, and prove the specification
claims about them.
-/

namespace Proxy

/-- JSON values as produced by `request.json()`.  Python dicts preserve
insertion order and have unique keys; objects are modelled as ordered
association lists.  Numbers are modelled as integers: no claim performs
arithmetic on payload numbers, only structural copying and key surgery. -/
inductive Json where
  | null : Json
  | bool : Bool → Json
  | num : Int → Json
  | str : String → Json
  | arr : List Json → Json
  | obj : List (String × Json) → Json

/-- A top-level JSON object (the request payload `data`). -/
abbrev Obj := List (String × Json)

/-- Python `d[k]` / `d.get(k)`: first binding for `k`. -/
def lookupKey (k : String) : Obj → Option Json
  | [] => none
  | p :: rest => if p.1 = k then some p.2 else lookupKey k rest

/-- Python `k in d`. -/
def hasKey (k : String) (o : Obj) : Bool :=
  (lookupKey k o).isSome

/-- Python `d.pop(k)` (the removal part). -/
def eraseKey (k : String) (o : Obj) : Obj :=
  o.filter (fun p => p.1 ≠ k)

/-- Python `d[k] = v`: replace in place when the key exists, append
otherwise. -/
def dictSet (k : String) (v : Json) (o : Obj) : Obj :=
  match lookupKey k o with
  | some _ => o.map (fun p => if p.1 = k then (k, v) else p)
  | none => o ++ [(k, v)]

/-- Read-modify-write of one key: the common shape of the in-place update
loops in `_strip_cache_control` (`F` returns `none` when the Python code
leaves the value untouched). -/
def updKey (k : String) (F : Json → Option Json) (o : Obj) : Obj :=
  match lookupKey k o with
  | some v =>
    match F v with
    | some v2 => dictSet k v2 o
    | none => o
  | none => o

/-- Sequential `data.pop(key)` over a list of keys. -/
def removeKeys (ks : List String) (o : Obj) : Obj :=
  ks.foldl (fun acc k => eraseKey k acc) o

/-- Every binding of key `k` carries value `v` (used to reason about
`dictSet`, which rewrites all bindings of a key). -/
def AllEq (k : String) (v : Json) (o : Obj) : Prop :=
  ∀ p ∈ o, p.1 = k → p.2 = v

/-- Python `needle in hay` on strings: contiguous-substring containment. -/
def containsSub (needle hay : String) : Bool :=
  decide (needle.toList <:+: hay.toList)

/-- Python `s.lower()`, character by character.  CPython lowercases the
full Unicode range; model names are ASCII, where per-character
`Char.toLower` agrees with CPython. -/
def strLower (s : String) : String := ⟨s.data.map Char.toLower⟩

/-- Python `s.startswith(pre)`. -/
def pyStartsWith (s pre : String) : Bool :=
  decide (pre.toList <+: s.toList)

/-- Python truthiness of a JSON value (`if is_streaming:`). -/
def truthy : Json → Bool
  | .null => false
  | .bool b => b
  | .num n => n != 0
  | .str s => !s.isEmpty
  | .arr xs => !xs.isEmpty
  | .obj fs => !fs.isEmpty

/-! ## Tier detection and provider configuration -/

inductive Tier where
  | opus : Tier
  | sonnet : Tier
  | haiku : Tier
deriving DecidableEq, Repr

/-- `_detect_tier` (`proxy.py:216`): case-insensitive substring routing with
priority opus → sonnet → haiku, then the legacy `glm` prefix rule. -/
def detect_tier (model_name : String) : Option Tier :=
  let m := strLower model_name
  if containsSub "opus" m then some .opus
  else if containsSub "sonnet" m then some .sonnet
  else if containsSub "haiku" m then some .haiku
  else if pyStartsWith m "glm" then some .sonnet
  else none

/-- Provider configuration relevant to routing.  `get_provider_config`
consults only the per-tier base URLs to decide the route; the API keys and
semaphores it returns are used for headers and concurrency, not for the
routing decision, so they are projected away. -/
structure Cfg where
  haikuBase : Option String
  sonnetBase : Option String
  opusBase : Option String
  zaiTargetModel : String

/-- `get_provider_config` (`proxy.py:231`), projected to the detected tier:
`some t` means a secondary (Z.AI) endpoint is used for tier `t`, `none`
means Anthropic passthrough. -/
def get_provider_config (cfg : Cfg) (model_name : String) : Option Tier :=
  match detect_tier model_name with
  | some .opus => if cfg.opusBase.isSome then some .opus else none
  | some .sonnet => if cfg.sonnetBase.isSome then some .sonnet else none
  | some .haiku => if cfg.haikuBase.isSome then some .haiku else none
  | none => none

/-! ## Compatibility checks (`_has_web_search`, `_has_image_content`,
`_has_forced_tool_choice`) -/

/-- One tool entry triggers the web-search test:
`isinstance(tool, dict) and str(tool.get("type", "")).startswith("web_search")`.
`str(x)` of a non-string JSON value can never start with `web_search`
(it renders as a digit, `[`, `{`, `True`, `False` or `None`). -/
def isWebSearchTool : Json → Bool
  | .obj f =>
    match lookupKey "type" f with
    | some (.str s) => pyStartsWith s "web_search"
    | _ => false
  | _ => false

/-- `_has_web_search` (`proxy.py:273`).  When `tools` is a non-list
container Python iterates its keys/characters, which are never dicts, so
the result is `false`; those cases are folded into the catch-all. -/
def has_web_search (data : Obj) : Bool :=
  match lookupKey "tools" data with
  | some (.arr ts) => ts.any isWebSearchTool
  | _ => false

/-- One content block of `_has_image_content`. -/
def blockHasImage : Json → Bool
  | .obj f =>
    (match lookupKey "type" f with
     | some (.str s) => s = "image" || s = "image_url"
     | _ => false)
    ||
    (match lookupKey "source" f with
     | some (.obj sf) =>
       match lookupKey "type" sf with
       | some (.str s) => s = "base64" || s = "url"
       | _ => false
     | _ => false)
  | _ => false

/-- One message of `_has_image_content`. -/
def msgHasImage : Json → Bool
  | .obj f =>
    match lookupKey "content" f with
    | some (.arr blocks) => blocks.any blockHasImage
    | _ => false
  | _ => false

/-- `_has_image_content` (`proxy.py:280`). -/
def has_image_content (data : Obj) : Bool :=
  match lookupKey "messages" data with
  | some (.arr ms) => ms.any msgHasImage
  | _ => false

/-- `_has_forced_tool_choice` (`proxy.py:298`).  For a dict `tool_choice`
with a non-string `type` value, Python evaluates
`value not in ("auto", "")` to `True`. -/
def has_forced_tool_choice (data : Obj) : Bool :=
  match lookupKey "tool_choice" data with
  | some (.obj f) =>
    match lookupKey "type" f with
    | some (.str s) => !(s = "auto" || s = "")
    | some _ => true
    | none => false
  | some (.str s) => !(s = "auto" || s = "")
  | _ => false

/-- The bypass-reason cascade of `proxy_messages` (`proxy.py:454`). -/
def bypass_reason (data : Obj) : Option String :=
  if has_web_search data then some "web_search"
  else if has_image_content data then some "vision/image"
  else if has_forced_tool_choice data then some "forced_tool_choice"
  else none

/-! ## Sanitization (`sanitize_for_zai`, `_strip_cache_control`) -/

/-- The fixed unsupported top-level keys (`proxy.py:316`). -/
def zaiUnsupportedKeys : List String :=
  ["metadata", "prompt_caching", "service_tier", "context_management", "output_config"]

/-- Thinking step of `sanitize_for_zai` (`proxy.py:322`). -/
def stripThinkingBudget (o : Obj) : Obj :=
  match lookupKey "thinking" o with
  | some (.obj t) =>
    if hasKey "budget_tokens" t then
      dictSet "thinking" (.obj (eraseKey "budget_tokens" t)) o
    else o
  | _ => o

/-- Tools step of `sanitize_for_zai` (`proxy.py:333`): filter web-search
tools, drop an emptied `tools` list together with `tool_choice`, and drop a
dict `tool_choice` naming `web_search`. -/
def sanitizeTools (o : Obj) : Obj :=
  match lookupKey "tools" o with
  | some (.arr ts) =>
    let ts2 := ts.filter (fun t => !isWebSearchTool t)
    if ts2.isEmpty then eraseKey "tool_choice" (eraseKey "tools" o)
    else
      let o2 := dictSet "tools" (.arr ts2) o
      match lookupKey "tool_choice" o2 with
      | some (.obj tc) =>
        match lookupKey "name" tc with
        | some (.str s) => if s = "web_search" then eraseKey "tool_choice" o2 else o2
        | _ => o2
      | _ => o2
  | _ => o

/-- Strip `cache_control` from one dict block (`_strip_cache_control`). -/
def stripCCBlock : Json → Json
  | .obj b => .obj (eraseKey "cache_control" b)
  | j => j

/-- Strip `cache_control` from one message and its list content blocks. -/
def stripCCMessage : Json → Json
  | .obj f =>
    let f1 := eraseKey "cache_control" f
    match lookupKey "content" f1 with
    | some (.arr blocks) => .obj (dictSet "content" (.arr (blocks.map stripCCBlock)) f1)
    | _ => .obj f1
  | m => m

/-- `system` clause of `_strip_cache_control` (`proxy.py:368`). -/
def ccSystemFn : Json → Option Json
  | .arr blocks => some (.arr (blocks.map stripCCBlock))
  | .obj s => some (.obj (eraseKey "cache_control" s))
  | _ => none

/-- `messages` clause of `_strip_cache_control` (`proxy.py:378`). -/
def ccMessagesFn : Json → Option Json
  | .arr ms => some (.arr (ms.map stripCCMessage))
  | _ => none

/-- `tools` clause of `_strip_cache_control` (`proxy.py:390`). -/
def ccToolsFn : Json → Option Json
  | .arr ts => some (.arr (ts.map stripCCBlock))
  | _ => none

/-- `_strip_cache_control` (`proxy.py:364`), as the value transformation
(the returned count is diagnostic only).  Python iterates non-list /
non-dict values of these keys without mutating anything, which the `none`
branches of the clause functions reproduce. -/
def strip_cache_control (o : Obj) : Obj :=
  updKey "tools" ccToolsFn (updKey "messages" ccMessagesFn (updKey "system" ccSystemFn o))

/-- `sanitize_for_zai` (`proxy.py:311`): unsupported keys, thinking budget,
legacy `extended_thinking`, web-search tools / `tool_choice`, then
`cache_control`, in source order.  The `removed` diagnostic list only feeds
a debug log and is dropped. -/
def sanitize_for_zai (data : Obj) : Obj :=
  strip_cache_control
    (sanitizeTools
      (eraseKey "extended_thinking"
        (stripThinkingBudget
          (removeKeys zaiUnsupportedKeys data))))

/-- Top-level keys that `sanitize_for_zai` may remove or rewrite; all other
top-level keys must pass through unchanged. -/
def sanitizeTouchedKeys : List String :=
  ["metadata", "prompt_caching", "service_tier", "context_management", "output_config",
   "thinking", "extended_thinking", "tools", "tool_choice", "system", "messages"]

/-! ## Circuit breaker (`CircuitBreaker`, `proxy.py:146`) -/

/-- Static circuit-breaker policy (constructor arguments). -/
structure CircuitBreaker where
  threshold : Nat
  recovery_time : ℚ

/-- Per-tier breaker state: `_failures.get(tier, 0)` and
`_opened_at.get(tier)`.  A missing dict entry is the same as failure count
0 / not open. -/
structure TierState where
  failures : Nat
  openedAt : Option ℚ
deriving DecidableEq

/-- Fresh state for a tier never touched. -/
def initialTierState : TierState := ⟨0, none⟩

/-- `CircuitBreaker.is_open` (`proxy.py:162`): returns the reported flag
and the (possibly lazily reset) successor state; `now` is the injected
clock reading `time.time()`. -/
def is_open (cb : CircuitBreaker) (now : ℚ) (s : TierState) : Bool × TierState :=
  match s.openedAt with
  | none => (false, s)
  | some t0 =>
    if cb.recovery_time ≤ now - t0 then (false, ⟨0, none⟩)
    else (true, s)

/-- `CircuitBreaker.record_failure` (`proxy.py:175`): increment the failure
count, and open the circuit when the incremented count reaches the
threshold and the circuit is not already open. -/
def record_failure (cb : CircuitBreaker) (now : ℚ) (s : TierState) : TierState :=
  if cb.threshold ≤ s.failures + 1 ∧ s.openedAt = none then ⟨s.failures + 1, some now⟩
  else ⟨s.failures + 1, s.openedAt⟩

/-- `CircuitBreaker.record_success` (`proxy.py:186`). -/
def record_success (_s : TierState) : TierState := ⟨0, none⟩

/-- A run of consecutive `record_failure` calls at the given clock
readings. -/
def applyFailures (cb : CircuitBreaker) (ts : List ℚ) (s : TierState) : TierState :=
  ts.foldl (fun acc t => record_failure cb t acc) s

/-! ## Deep copy (`json.loads(json.dumps(data, default=str))`,
`proxy.py:447`).  The ingress payload is JSON-decoded, so the
serialize/deserialize round trip is a structural deep copy; it is embedded
as an explicit node-by-node copy. -/

mutual

def deepCopy : Json → Json
  | .null => .null
  | .bool b => .bool b
  | .num n => .num n
  | .str s => .str s
  | .arr xs => .arr (deepCopyList xs)
  | .obj fs => .obj (deepCopyFields fs)

def deepCopyList : List Json → List Json
  | [] => []
  | x :: xs => deepCopy x :: deepCopyList xs

def deepCopyFields : List (String × Json) → List (String × Json)
  | [] => []
  | p :: fs => (p.1, deepCopy p.2) :: deepCopyFields fs

end

/-- Deep copy of the top-level payload object. -/
def deepCopyObj (o : Obj) : Obj := deepCopyFields o

/-! ## The send/retry loop of `proxy_messages` (`proxy.py:503`) -/

/-- Outcome of one `client.send` / `client.post` to the resolved target. -/
inductive SendOutcome where
  | http : Nat → String → Option String → SendOutcome
  | readTimeout : SendOutcome
  | connectTimeout : SendOutcome
  | otherError : SendOutcome
deriving DecidableEq

/-- Outcome of one fallback call to the primary provider. -/
inductive FbOutcome where
  | resp : Nat → String → FbOutcome
  | raiseReadTimeout : FbOutcome
  | raiseConnectTimeout : FbOutcome
  | raiseOther : FbOutcome
deriving DecidableEq

/-- A sleep performed before a retry: either the jittered exponential
backoff `calculate_retry_delay(attempt)` or an upstream `Retry-After`
value. -/
inductive Delay where
  | backoff : Nat → Delay
  | retryAfter : String → Delay
deriving DecidableEq

/-- The backoff sleeps performed by `n` consecutive retried attempts
starting at attempt index `a`. -/
def backoffs : Nat → Nat → List Delay
  | _, 0 => []
  | a, n + 1 => Delay.backoff a :: backoffs (a + 1) n

/-- What the handler ultimately returns to the client. -/
inductive ProxyResponse where
  | upstream : Nat → String → Bool → ProxyResponse
  | streamRelay : Bool → ProxyResponse
  | gatewayTimeout : ProxyResponse
  | maxRetriesExceeded : ProxyResponse
  | proxyError : ProxyResponse
deriving DecidableEq

/-- Observable trace of the loop: sends to the resolved target, circuit
events, sleeps, and the payload of every fallback call to primary. -/
structure LoopState where
  sends : Nat
  fails : Nat
  succs : Nat
  sleeps : List Delay
  fbPayloads : List Obj
  fbq : List FbOutcome

def initState (fbq : List FbOutcome) : LoopState :=
  ⟨0, 0, 0, [], [], fbq⟩

structure RunResult where
  response : ProxyResponse
  final : LoopState

/-- Issue one fallback call to the primary provider with payload `snap`,
consuming the next scripted fallback outcome (an exhausted script defaults
to a 200 response). -/
def popFb (snap : Obj) (st : LoopState) : FbOutcome × LoopState :=
  match st.fbq with
  | [] => (.resp 200 "", { st with fbPayloads := st.fbPayloads ++ [snap] })
  | f :: rest => (f, { st with fbq := rest, fbPayloads := st.fbPayloads ++ [snap] })

/-- Status component of `_is_zai_server_error` (`proxy.py:418`). -/
def zaiErrStatus (status : Nat) : Bool :=
  status = 400 || status = 500 || status = 502 || status = 503

/-- Body marker of a masked Z.AI internal error. -/
def hasCode500 (body : String) : Bool :=
  containsSub "\"code\":\"500\"" body || containsSub "\"code\": \"500\"" body

/-- `_is_zai_server_error` (`proxy.py:416`). -/
def is_zai_server_error (status : Nat) (body : String) : Bool :=
  zaiErrStatus status && hasCode500 body

/-- Whitespace stripped by Python `float(str)` before parsing (ASCII
whitespace; Unicode spaces, which cannot occur in an httpx header value,
are not modelled). -/
def pySpace (c : Char) : Bool :=
  c = ' ' || c = '\t' || c = '\n' || c = '\r' || c = '\x0b' || c = '\x0c'

def stripSpaces (l : List Char) : List Char :=
  ((l.dropWhile pySpace).reverse.dropWhile pySpace).reverse

def isAsciiDigit (c : Char) : Bool :=
  decide ('0' ≤ c) && decide (c ≤ '9')

/-- Consume further digits of a digit group, allowing a single underscore
between two digits (CPython's `_Py_string_to_double` underscore rule). -/
def digitsRest : List Char → List Char
  | [] => []
  | c :: cs =>
    if isAsciiDigit c then digitsRest cs
    else if c = '_' then
      match cs with
      | d :: cs2 => if isAsciiDigit d then digitsRest cs2 else c :: cs
      | [] => [c]
    else c :: cs

/-- Consume a non-empty digit group (with embedded underscores); `none` if
the input does not start with a digit. -/
def udigits : List Char → Option (List Char)
  | c :: cs => if isAsciiDigit c then some (digitsRest cs) else none
  | [] => none

/-- Accept an optional exponent part (`e`/`E`, optional sign, digits)
consuming the whole remaining input. -/
def parseExp : List Char → Bool
  | [] => true
  | c :: cs =>
    if c = 'e' || c = 'E' then
      match cs with
      | s :: cs3 =>
        if s = '+' || s = '-' then
          match udigits cs3 with
          | some rest => rest.isEmpty
          | none => false
        else
          match udigits cs with
          | some rest => rest.isEmpty
          | none => false
      | [] => false
    else false

/-- Consume the mantissa: `digits [. [digits]]` or `. digits`. -/
def parseMantissa (l : List Char) : Option (List Char) :=
  match udigits l with
  | some rest =>
    match rest with
    | c :: rest2 =>
      if c = '.' then
        match udigits rest2 with
        | some rest3 => some rest3
        | none => some rest2
      else some rest
    | [] => some []
  | none =>
    match l with
    | c :: rest2 =>
      if c = '.' then
        match udigits rest2 with
        | some rest3 => some rest3
        | none => none
      else none
    | [] => none

/-- Accept the signless body of a Python float literal: `inf`, `infinity`
or `nan` (case-insensitive), or mantissa plus optional exponent. -/
def pyFloatBody (l : List Char) : Bool :=
  let low := l.map Char.toLower
  if low = ['i', 'n', 'f'] || low = ['i', 'n', 'f', 'i', 'n', 'i', 't', 'y']
      || low = ['n', 'a', 'n'] then
    true
  else
    match parseMantissa l with
    | some rest => parseExp rest
    | none => false

/-- Whether Python `float(s)` succeeds (`proxy.py:567`): strip whitespace,
optional sign, then a float body.  A string rejected here makes `float`
raise `ValueError`.  Non-ASCII decimal digits, which Python would also
accept but which cannot reach this call through an httpx header, are not
modelled. -/
def pyFloatParses (s : String) : Bool :=
  match stripSpaces s.data with
  | c :: cs => if c = '+' || c = '-' then pyFloatBody cs else pyFloatBody (c :: cs)
  | [] => false

/-- Delay selection on a 429 (`proxy.py:566`–`567`): a present, non-empty
`Retry-After` header is parsed with `float`; on success its value is the
sleep, while a parse failure raises `ValueError` out of the `try`, lands in
the generic `except Exception` handler (`proxy.py:632`) and — since the 429
branch already established `attempt < MAX_RETRIES - 1` — sleeps the computed
backoff and continues, exactly like an absent or empty header. -/
def delayFor429 (retryAfter : Option String) (a : Nat) : Delay :=
  match retryAfter with
  | some v =>
    if v.isEmpty then .backoff a
    else if pyFloatParses v then .retryAfter v
    else .backoff a
  | none => .backoff a

/-- Read-timeout exhaustion (`proxy.py:609`): on the Z.AI route one
fallback `client.post` is attempted inside its own try (any exception there
yields 504); on the Anthropic route the handler returns 504 directly. -/
def nsTimeoutExhaust (isZai : Bool) (snap : Obj) (st : LoopState) : RunResult :=
  if isZai then
    match (popFb snap st).1 with
    | .resp s b => ⟨.upstream s b true, (popFb snap st).2⟩
    | _ => ⟨.gatewayTimeout, (popFb snap st).2⟩
  else ⟨.gatewayTimeout, st⟩

/-- Non-streaming branch of the retry loop (`proxy.py:562`–`639`), driven
by the scripted outcome of each attempt.  The list length is
`MAX_RETRIES`; `rest.isEmpty` encodes `attempt == MAX_RETRIES - 1`.  A
fallback call that itself raises lands in the outer `except` handlers of
the same iteration, which is modelled in the `raise*` cases. -/
def runNS (isZai : Bool) (snap : Obj) : List SendOutcome → Nat → LoopState → RunResult
  | [], _, st => ⟨.maxRetriesExceeded, st⟩
  | o :: rest, a, st =>
    let st1 : LoopState := { st with sends := st.sends + 1 }
    match o with
    | .http status body retryAfter =>
      if status = 429 ∧ rest.isEmpty = false then
        runNS isZai snap rest (a + 1)
          { st1 with sleeps := st1.sleeps ++ [delayFor429 retryAfter a] }
      else if 400 ≤ status ∧ isZai = true ∧ is_zai_server_error status body = true then
        let st2 := (popFb snap { st1 with fails := st1.fails + 1 }).2
        match (popFb snap { st1 with fails := st1.fails + 1 }).1 with
        | .resp s b => ⟨.upstream s b true, st2⟩
        | .raiseReadTimeout =>
          if rest.isEmpty = false then
            runNS isZai snap rest (a + 1)
              { st2 with fails := st2.fails + 1, sleeps := st2.sleeps ++ [.backoff a] }
          else nsTimeoutExhaust isZai snap { st2 with fails := st2.fails + 1 }
        | .raiseConnectTimeout =>
          if rest.isEmpty = false then
            runNS isZai snap rest (a + 1) { st2 with sleeps := st2.sleeps ++ [.backoff a] }
          else ⟨.gatewayTimeout, st2⟩
        | .raiseOther =>
          if rest.isEmpty = false then
            runNS isZai snap rest (a + 1) { st2 with sleeps := st2.sleeps ++ [.backoff a] }
          else ⟨.proxyError, st2⟩
      else
        if status < 400 ∧ isZai = true then
          ⟨.upstream status body false, { st1 with succs := st1.succs + 1 }⟩
        else ⟨.upstream status body false, st1⟩
    | .readTimeout =>
      let st2 := if isZai then { st1 with fails := st1.fails + 1 } else st1
      if rest.isEmpty = false then
        runNS isZai snap rest (a + 1) { st2 with sleeps := st2.sleeps ++ [.backoff a] }
      else nsTimeoutExhaust isZai snap st2
    | .connectTimeout =>
      if rest.isEmpty = false then
        runNS isZai snap rest (a + 1) { st1 with sleeps := st1.sleeps ++ [.backoff a] }
      else ⟨.gatewayTimeout, st1⟩
    | .otherError =>
      if rest.isEmpty = false then
        runNS isZai snap rest (a + 1) { st1 with sleeps := st1.sleeps ++ [.backoff a] }
      else ⟨.proxyError, st1⟩

/-- Streaming branch of the retry loop (`proxy.py:510`–`561` plus the
shared `except` handlers).  Timeouts establishing the stream are caught by
the inner `try` and never fall back; a ≥400 initial status with the
embedded `"code":"500"` marker on the Z.AI route triggers the streaming
fallback before any byte is relayed. -/
def runStream (isZai : Bool) (snap : Obj) : List SendOutcome → Nat → LoopState → RunResult
  | [], _, st => ⟨.maxRetriesExceeded, st⟩
  | o :: rest, a, st =>
    let st1 : LoopState := { st with sends := st.sends + 1 }
    match o with
    | .http status body _ =>
      if 400 ≤ status then
        if isZai = true ∧ hasCode500 body = true then
          let st2 := (popFb snap { st1 with fails := st1.fails + 1 }).2
          match (popFb snap { st1 with fails := st1.fails + 1 }).1 with
          | .resp s b =>
            if s < 400 then ⟨.streamRelay true, st2⟩ else ⟨.upstream s b true, st2⟩
          | .raiseReadTimeout =>
            if rest.isEmpty = false then
              runStream isZai snap rest (a + 1)
                { st2 with fails := st2.fails + 1, sleeps := st2.sleeps ++ [.backoff a] }
            else nsTimeoutExhaust isZai snap { st2 with fails := st2.fails + 1 }
          | .raiseConnectTimeout =>
            if rest.isEmpty = false then
              runStream isZai snap rest (a + 1) { st2 with sleeps := st2.sleeps ++ [.backoff a] }
            else ⟨.gatewayTimeout, st2⟩
          | .raiseOther =>
            if rest.isEmpty = false then
              runStream isZai snap rest (a + 1) { st2 with sleeps := st2.sleeps ++ [.backoff a] }
            else ⟨.proxyError, st2⟩
        else ⟨.upstream status body false, st1⟩
      else
        if isZai then ⟨.streamRelay false, { st1 with succs := st1.succs + 1 }⟩
        else ⟨.streamRelay false, st1⟩
    | .readTimeout =>
      if rest.isEmpty = false then
        runStream isZai snap rest (a + 1) { st1 with sleeps := st1.sleeps ++ [.backoff a] }
      else ⟨.gatewayTimeout, st1⟩
    | .connectTimeout =>
      if rest.isEmpty = false then
        runStream isZai snap rest (a + 1) { st1 with sleeps := st1.sleeps ++ [.backoff a] }
      else ⟨.gatewayTimeout, st1⟩
    | .otherError =>
      if rest.isEmpty = false then
        runStream isZai snap rest (a + 1) { st1 with sleeps := st1.sleeps ++ [.backoff a] }
      else ⟨.proxyError, st1⟩

/-! ## Route resolution and the full handler pipeline -/

inductive Target where
  | secondary : Tier → Target
  | primary : Target
deriving DecidableEq

/-- `data.get("model", "")` as the routed model name.  A non-string
`model` value would make `_detect_tier` raise before any routing; such
payloads are outside the modelled domain (see `modelFieldOk`). -/
def getModelName (o : Obj) : String :=
  match lookupKey "model" o with
  | some (.str s) => s
  | _ => ""

/-- The payload's `model` field is absent or a string — the domain on
which `proxy_messages` does not crash in `_detect_tier`. -/
def modelFieldOk (o : Obj) : Bool :=
  match lookupKey "model" o with
  | none => true
  | some (.str _) => true
  | some _ => false

/-- `data.get("stream", False)` under Python truthiness. -/
def getStream (o : Obj) : Bool :=
  match lookupKey "stream" o with
  | some v => truthy v
  | none => false

/-- Route resolution of `proxy_messages` (`proxy.py:449`–`501`): secondary
unless unconfigured, bypassed for compatibility, or circuit-open; on the
secondary route the working payload is rewritten to the Z.AI target model
and sanitized, on the primary route it is passed through untouched. -/
def resolveRoute (cfg : Cfg) (cbOpen : Tier → Bool) (data : Obj) : Target × Obj :=
  match get_provider_config cfg (getModelName data) with
  | none => (.primary, data)
  | some tier =>
    if (bypass_reason data).isSome then (.primary, data)
    else if cbOpen tier then (.primary, data)
    else (.secondary tier, sanitize_for_zai (dictSet "model" (.str cfg.zaiTargetModel) data))

/-- Full observable outcome of one `proxy_messages` invocation. -/
structure ProxyRun where
  target : Target
  sentPayload : Obj
  result : RunResult

/-- `proxy_messages` (`proxy.py:439`): snapshot the payload, resolve the
route (circuit state abstracted to the per-tier read `cbOpen`), then run
the retry loop for the streaming or buffered pipeline. -/
def proxy_messages (cfg : Cfg) (cbOpen : Tier → Bool) (data : Obj)
    (outs : List SendOutcome) (fbq : List FbOutcome) : ProxyRun :=
  let snapshot := deepCopyObj data
  let tr := resolveRoute cfg cbOpen data
  let isZai : Bool := match tr.1 with
    | .secondary _ => true
    | .primary => false
  let res :=
    if getStream data then runStream isZai snapshot outs 0 (initState fbq)
    else runNS isZai snapshot outs 0 (initState fbq)
  ⟨tr.1, tr.2, res⟩

/-! ## Basic lemmas about the object operations -/

theorem lookupKey_eraseKey_self (k : String) (o : Obj) :
    lookupKey k (eraseKey k o) = none := by
  induction o with
  | nil => rfl
  | cons p rest ih =>
    by_cases h : p.1 = k
    · simpa [eraseKey, List.filter_cons, h] using ih
    · simpa [eraseKey, List.filter_cons, h, lookupKey] using ih

theorem eraseKey_cons_pos {k : String} {p : String × Json} (h : p.1 = k) (rest : Obj) :
    eraseKey k (p :: rest) = eraseKey k rest := by
  simp [eraseKey, List.filter_cons, h]

theorem eraseKey_cons_neg {k : String} {p : String × Json} (h : ¬p.1 = k) (rest : Obj) :
    eraseKey k (p :: rest) = p :: eraseKey k rest := by
  simp [eraseKey, List.filter_cons, h]

theorem lookupKey_eraseKey_ne {k k2 : String} (h : k ≠ k2) (o : Obj) :
    lookupKey k (eraseKey k2 o) = lookupKey k o := by
  induction o with
  | nil => rfl
  | cons p rest ih =>
    by_cases h2 : p.1 = k2
    · have hpk : ¬p.1 = k := by rw [h2]; exact Ne.symm h
      have he : eraseKey k2 (p :: rest) = eraseKey k2 rest := by
        simp [eraseKey, List.filter_cons, h2]
      rw [he, ih]
      simp only [lookupKey, if_neg hpk]
    · have he : eraseKey k2 (p :: rest) = p :: eraseKey k2 rest := by
        simp [eraseKey, List.filter_cons, h2]
      rw [he]
      simp only [lookupKey, ih]

theorem eraseKey_eraseKey (k k2 : String) (o : Obj) :
    eraseKey k (eraseKey k2 o) = eraseKey k2 (eraseKey k o) := by
  simp only [eraseKey, List.filter_filter]
  congr 1
  funext p
  by_cases h : p.1 = k <;> by_cases h2 : p.1 = k2 <;> simp [h, h2]

theorem eraseKey_idem (k : String) (o : Obj) :
    eraseKey k (eraseKey k o) = eraseKey k o := by
  simp only [eraseKey, List.filter_filter]
  congr 1
  funext p
  by_cases h : p.1 = k <;> simp [h]

theorem eraseKey_of_lookupKey_none {k : String} {o : Obj}
    (h : lookupKey k o = none) : eraseKey k o = o := by
  induction o with
  | nil => rfl
  | cons p rest ih =>
    by_cases h2 : p.1 = k
    · simp [lookupKey, h2] at h
    · simp [lookupKey, h2] at h
      simp [eraseKey, List.filter_cons, h2] at ih ⊢
      exact ih h

theorem lookupKey_append (k : String) (o l2 : Obj) :
    lookupKey k (o ++ l2) =
      (match lookupKey k o with
       | some v => some v
       | none => lookupKey k l2) := by
  induction o with
  | nil => rfl
  | cons p rest ih =>
    by_cases h : p.1 = k <;> simp [lookupKey, h, ih]

theorem lookupKey_setMap_self {k : String} {v : Json} (o : Obj) :
    lookupKey k (o.map (fun p => if p.1 = k then (k, v) else p)) =
      (match lookupKey k o with
       | some _ => some v
       | none => none) := by
  induction o with
  | nil => rfl
  | cons p rest ih =>
    by_cases h : p.1 = k <;> simp [lookupKey, h, ih]

theorem lookupKey_setMap_ne {k k2 : String} {v : Json} (h : k ≠ k2) (o : Obj) :
    lookupKey k (o.map (fun p => if p.1 = k2 then (k2, v) else p)) = lookupKey k o := by
  induction o with
  | nil => rfl
  | cons p rest ih =>
    by_cases h2 : p.1 = k2
    · have hpk : ¬p.1 = k := by rw [h2]; exact Ne.symm h
      have hk2 : ¬k2 = k := Ne.symm h
      simp [lookupKey, h2, hpk, hk2, ih]
    · by_cases h3 : p.1 = k <;> simp [lookupKey, h2, h3, h, ih]

theorem lookupKey_dictSet_self (k : String) (v : Json) (o : Obj) :
    lookupKey k (dictSet k v o) = some v := by
  unfold dictSet
  cases hc : lookupKey k o with
  | none => simp [lookupKey_append, hc, lookupKey]
  | some u => simp [lookupKey_setMap_self, hc]

theorem lookupKey_dictSet_ne {k k2 : String} (h : k ≠ k2) (v : Json) (o : Obj) :
    lookupKey k (dictSet k2 v o) = lookupKey k o := by
  unfold dictSet
  cases hc : lookupKey k2 o with
  | none =>
    have hk2 : ¬k2 = k := Ne.symm h
    rw [lookupKey_append]
    simp only [lookupKey, if_neg hk2]
    cases lookupKey k o <;> rfl
  | some u => exact lookupKey_setMap_ne h o

theorem keys_ne_of_lookupKey_none {k : String} {o : Obj}
    (h : lookupKey k o = none) : ∀ p ∈ o, p.1 ≠ k := by
  induction o with
  | nil => intro p hp; cases hp
  | cons q rest ih =>
    intro p hp
    by_cases h2 : q.1 = k
    · simp [lookupKey, h2] at h
    · simp only [lookupKey, if_neg h2] at h
      rcases List.mem_cons.mp hp with hp2 | hp2
      · rw [hp2]; exact h2
      · exact ih h p hp2

theorem setMap_of_none {k : String} {v : Json} {o : Obj}
    (h : lookupKey k o = none) :
    o.map (fun p => if p.1 = k then (k, v) else p) = o := by
  induction o with
  | nil => rfl
  | cons p rest ih =>
    by_cases h2 : p.1 = k
    · simp [lookupKey, h2] at h
    · simp [lookupKey, h2] at h
      simp [h2, ih h]

theorem dictSet_dictSet (k : String) (v w : Json) (o : Obj) :
    dictSet k v (dictSet k w o) = dictSet k v o := by
  cases hc : lookupKey k o with
  | some u =>
    have h1 : dictSet k w o = o.map (fun p => if p.1 = k then (k, w) else p) := by
      simp [dictSet, hc]
    have h2 : lookupKey k (o.map (fun p => if p.1 = k then (k, w) else p)) = some w := by
      rw [lookupKey_setMap_self, hc]
    rw [h1]
    simp only [dictSet, h2, hc, List.map_map]
    apply List.map_congr_left
    intro p _
    by_cases h3 : p.1 = k <;> simp [Function.comp, h3]
  | none =>
    have h1 : dictSet k w o = o ++ [(k, w)] := by simp [dictSet, hc]
    have h2 : lookupKey k (o ++ [(k, w)]) = some w := by
      rw [lookupKey_append, hc]; simp [lookupKey]
    rw [h1]
    simp only [dictSet, h2, hc, List.map_append]
    rw [setMap_of_none hc]
    simp [lookupKey]

theorem eraseKey_append (k : String) (o l2 : Obj) :
    eraseKey k (o ++ l2) = eraseKey k o ++ eraseKey k l2 := by
  simp [eraseKey, List.filter_append]

theorem eraseKey_setMap_self {k : String} {v : Json} (o : Obj) :
    eraseKey k (o.map (fun p => if p.1 = k then (k, v) else p)) = eraseKey k o := by
  induction o with
  | nil => rfl
  | cons p rest ih =>
    by_cases h : p.1 = k
    · rw [List.map_cons, if_pos h,
        eraseKey_cons_pos (show ((k, v) : String × Json).1 = k from rfl),
        eraseKey_cons_pos h, ih]
    · rw [List.map_cons, if_neg h, eraseKey_cons_neg h, eraseKey_cons_neg h, ih]

theorem eraseKey_dictSet_self (k : String) (v : Json) (o : Obj) :
    eraseKey k (dictSet k v o) = eraseKey k o := by
  cases hc : lookupKey k o with
  | some u =>
    simp only [dictSet, hc]
    exact eraseKey_setMap_self o
  | none =>
    simp only [dictSet, hc, eraseKey_append]
    simp [eraseKey, List.filter_cons]

theorem eraseKey_setMap_ne {k k2 : String} {v : Json} (h : k ≠ k2) (o : Obj) :
    eraseKey k (o.map (fun p => if p.1 = k2 then (k2, v) else p)) =
      (eraseKey k o).map (fun p => if p.1 = k2 then (k2, v) else p) := by
  induction o with
  | nil => rfl
  | cons p rest ih =>
    by_cases h2 : p.1 = k2
    · have hpk : ¬p.1 = k := by rw [h2]; exact Ne.symm h
      have hk2v : ¬((k2, v) : String × Json).1 = k := Ne.symm h
      rw [List.map_cons, if_pos h2, eraseKey_cons_neg hk2v, eraseKey_cons_neg hpk, ih,
        List.map_cons, if_pos h2]
    · by_cases h3 : p.1 = k
      · rw [List.map_cons, if_neg h2, eraseKey_cons_pos h3, eraseKey_cons_pos h3, ih]
      · rw [List.map_cons, if_neg h2, eraseKey_cons_neg h3, eraseKey_cons_neg h3, ih,
          List.map_cons, if_neg h2]

theorem eraseKey_dictSet_ne {k k2 : String} (h : k ≠ k2) (v : Json) (o : Obj) :
    eraseKey k (dictSet k2 v o) = dictSet k2 v (eraseKey k o) := by
  cases hc : lookupKey k2 o with
  | some u =>
    have h2 : lookupKey k2 (eraseKey k o) = some u := by
      rw [lookupKey_eraseKey_ne (Ne.symm h)]; exact hc
    simp only [dictSet, hc, h2]
    exact eraseKey_setMap_ne h o
  | none =>
    have h2 : lookupKey k2 (eraseKey k o) = none := by
      rw [lookupKey_eraseKey_ne (Ne.symm h)]; exact hc
    simp only [dictSet, hc, h2, eraseKey_append]
    have : eraseKey k [(k2, v)] = [(k2, v)] := by
      simp [eraseKey, List.filter_cons, Ne.symm h]
    rw [this]

theorem allEq_dictSet (k : String) (v : Json) (o : Obj) :
    AllEq k v (dictSet k v o) := by
  cases hc : lookupKey k o with
  | some u =>
    simp only [dictSet, hc]
    intro p hp hk
    rcases List.mem_map.mp hp with ⟨q, _, rfl⟩
    by_cases h2 : q.1 = k
    · rw [if_pos h2]
    · rw [if_neg h2] at hk
      exact absurd hk h2
  | none =>
    simp only [dictSet, hc]
    intro p hp hk
    rcases List.mem_append.mp hp with hp | hp
    · exact absurd hk (keys_ne_of_lookupKey_none hc p hp)
    · simp at hp
      rw [hp]

theorem dictSet_of_allEq {k : String} {v : Json} {o : Obj}
    (h : AllEq k v o) (hk : (lookupKey k o).isSome) : dictSet k v o = o := by
  rcases Option.isSome_iff_exists.mp hk with ⟨u, hu⟩
  simp only [dictSet, hu]
  conv_rhs => rw [← List.map_id o]
  apply List.map_congr_left
  intro p hp
  by_cases h2 : p.1 = k
  · have hv := h p hp h2
    cases p with
    | mk a b => simp at h2 hv; simp [h2, hv]
  · simp [h2]

theorem allEq_eraseKey {k k2 : String} {v : Json} {o : Obj}
    (h : AllEq k v o) : AllEq k v (eraseKey k2 o) := by
  intro p hp hk
  exact h p (List.mem_of_mem_filter hp) hk

theorem allEq_dictSet_ne {k k2 : String} {v w : Json} {o : Obj}
    (hne : k ≠ k2) (h : AllEq k v o) : AllEq k v (dictSet k2 w o) := by
  cases hc : lookupKey k2 o with
  | some u =>
    simp only [dictSet, hc]
    intro p hp hk
    rcases List.mem_map.mp hp with ⟨q, hq, rfl⟩
    by_cases h2 : q.1 = k2
    · rw [if_pos h2] at hk
      exact absurd hk (Ne.symm hne)
    · rw [if_neg h2] at hk ⊢
      exact h q hq hk
  | none =>
    simp only [dictSet, hc]
    intro p hp hk
    rcases List.mem_append.mp hp with hp | hp
    · exact h p hp hk
    · simp at hp
      rw [hp] at hk
      exact absurd hk (Ne.symm hne)

/-! ## Lemmas about `updKey` and `removeKeys` -/

theorem updKey_of_none {k : String} {F : Json → Option Json} {o : Obj}
    (h : lookupKey k o = none) : updKey k F o = o := by
  simp [updKey, h]

theorem lookupKey_updKey_ne {k k2 : String} (h : k ≠ k2) (F : Json → Option Json) (o : Obj) :
    lookupKey k (updKey k2 F o) = lookupKey k o := by
  cases hc : lookupKey k2 o with
  | none => rw [updKey_of_none hc]
  | some v =>
    cases hf : F v with
    | none => simp [updKey, hc, hf]
    | some v2 => simp [updKey, hc, hf, lookupKey_dictSet_ne h]

theorem lookupKey_none_eraseKey {k : String} (k2 : String) {o : Obj}
    (h : lookupKey k o = none) : lookupKey k (eraseKey k2 o) = none := by
  by_cases h2 : k = k2
  · rw [h2]; exact lookupKey_eraseKey_self k2 o
  · rw [lookupKey_eraseKey_ne h2]; exact h

theorem lookupKey_none_updKey {k k2 : String} {F : Json → Option Json} {o : Obj}
    (h : lookupKey k o = none) : lookupKey k (updKey k2 F o) = none := by
  by_cases h2 : k = k2
  · subst h2; rw [updKey_of_none h]; exact h
  · rw [lookupKey_updKey_ne h2]; exact h

theorem updKey_idem {k : String} {F : Json → Option Json}
    (hF : ∀ v v2, F v = some v2 → F v2 = some v2) (o : Obj) :
    updKey k F (updKey k F o) = updKey k F o := by
  cases hc : lookupKey k o with
  | none => simp [updKey, hc]
  | some v =>
    cases hf : F v with
    | none => simp [updKey, hc, hf]
    | some v2 =>
      have h1 : lookupKey k (dictSet k v2 o) = some v2 := lookupKey_dictSet_self k v2 o
      have h2 : F v2 = some v2 := hF v v2 hf
      simp [updKey, hc, hf, h1, h2, dictSet_dictSet]

theorem dictSet_comm {k k2 : String} (hne : k ≠ k2) {v w : Json} {o : Obj}
    (h1 : (lookupKey k o).isSome) (h2 : (lookupKey k2 o).isSome) :
    dictSet k v (dictSet k2 w o) = dictSet k2 w (dictSet k v o) := by
  rcases Option.isSome_iff_exists.mp h1 with ⟨u, hu⟩
  rcases Option.isSome_iff_exists.mp h2 with ⟨u2, hu2⟩
  have hg : dictSet k2 w o = o.map (fun p => if p.1 = k2 then (k2, w) else p) := by
    simp [dictSet, hu2]
  have hf : dictSet k v o = o.map (fun p => if p.1 = k then (k, v) else p) := by
    simp [dictSet, hu]
  have l1 : lookupKey k (o.map (fun p => if p.1 = k2 then (k2, w) else p)) = some u := by
    rw [lookupKey_setMap_ne hne]; exact hu
  have l2 : lookupKey k2 (o.map (fun p => if p.1 = k then (k, v) else p)) = some u2 := by
    rw [lookupKey_setMap_ne (Ne.symm hne)]; exact hu2
  rw [hg, hf]
  simp only [dictSet, l1, l2, List.map_map]
  apply List.map_congr_left
  intro p _
  by_cases h3 : p.1 = k2
  · have hpk : ¬p.1 = k := by rw [h3]; exact Ne.symm hne
    simp [Function.comp, h3, hpk, Ne.symm hne]
  · by_cases h4 : p.1 = k <;> simp [Function.comp, h3, h4, hne]

theorem updKey_comm {k k2 : String} (hne : k ≠ k2)
    (F G : Json → Option Json) (o : Obj) :
    updKey k F (updKey k2 G o) = updKey k2 G (updKey k F o) := by
  cases hc : lookupKey k o with
  | none =>
    cases hc2 : lookupKey k2 o with
    | none => rw [updKey_of_none hc2, updKey_of_none hc, updKey_of_none hc2]
    | some w =>
      cases hg : G w with
      | none => simp [updKey, hc, hc2, hg]
      | some w2 =>
        have l1 : lookupKey k (dictSet k2 w2 o) = none := by
          rw [lookupKey_dictSet_ne hne]; exact hc
        simp [updKey, hc, hc2, hg, l1]
  | some v =>
    cases hc2 : lookupKey k2 o with
    | none =>
      cases hf : F v with
      | none => simp [updKey, hc, hc2, hf]
      | some v2 =>
        have l2 : lookupKey k2 (dictSet k v2 o) = none := by
          rw [lookupKey_dictSet_ne (Ne.symm hne)]; exact hc2
        simp [updKey, hc, hc2, hf, l2]
    | some w =>
      cases hf : F v with
      | none =>
        cases hg : G w with
        | none => simp [updKey, hc, hc2, hf, hg]
        | some w2 =>
          have l1 : lookupKey k (dictSet k2 w2 o) = some v := by
            rw [lookupKey_dictSet_ne hne]; exact hc
          simp [updKey, hc, hc2, hf, hg, l1]
      | some v2 =>
        cases hg : G w with
        | none =>
          have l2 : lookupKey k2 (dictSet k v2 o) = some w := by
            rw [lookupKey_dictSet_ne (Ne.symm hne)]; exact hc2
          simp [updKey, hc, hc2, hf, hg, l2]
        | some w2 =>
          have l1 : lookupKey k (dictSet k2 w2 o) = some v := by
            rw [lookupKey_dictSet_ne hne]; exact hc
          have l2 : lookupKey k2 (dictSet k v2 o) = some w := by
            rw [lookupKey_dictSet_ne (Ne.symm hne)]; exact hc2
          simp only [updKey, hc, hc2, hf, hg, l1, l2]
          exact dictSet_comm hne (by simp [hc]) (by simp [hc2])

theorem removeKeys_cons (k : String) (ks : List String) (o : Obj) :
    removeKeys (k :: ks) o = removeKeys ks (eraseKey k o) := rfl

theorem removeKeys_of_none {ks : List String} {o : Obj}
    (h : ∀ k2 ∈ ks, lookupKey k2 o = none) : removeKeys ks o = o := by
  induction ks generalizing o with
  | nil => rfl
  | cons k ks ih =>
    rw [removeKeys_cons, eraseKey_of_lookupKey_none (h k (by simp))]
    exact ih fun k2 hk2 => h k2 (by simp [hk2])

theorem lookupKey_none_removeKeys {k : String} {ks : List String} {o : Obj}
    (h : lookupKey k o = none) : lookupKey k (removeKeys ks o) = none := by
  induction ks generalizing o with
  | nil => exact h
  | cons k2 ks ih => exact ih (lookupKey_none_eraseKey k2 h)

theorem lookupKey_removeKeys_mem {k : String} {ks : List String} (hk : k ∈ ks) (o : Obj) :
    lookupKey k (removeKeys ks o) = none := by
  induction ks generalizing o with
  | nil => cases hk
  | cons k2 ks ih =>
    rw [removeKeys_cons]
    by_cases h2 : k = k2
    · subst h2
      exact lookupKey_none_removeKeys (lookupKey_eraseKey_self k o)
    · have hks : k ∈ ks := by
        rcases List.mem_cons.mp hk with h | h
        · exact absurd h h2
        · exact h
      exact ih hks _

theorem lookupKey_removeKeys_ne {k : String} {ks : List String} (hk : k ∉ ks) (o : Obj) :
    lookupKey k (removeKeys ks o) = lookupKey k o := by
  induction ks generalizing o with
  | nil => rfl
  | cons k2 ks ih =>
    rw [removeKeys_cons, ih (fun h => hk (by simp [h])),
      lookupKey_eraseKey_ne (fun h => hk (by simp [h]))]

/-! ## The deep copy is the identity on JSON trees -/

mutual

theorem deepCopy_eq : ∀ j : Json, deepCopy j = j
  | .null => rfl
  | .bool _ => rfl
  | .num _ => rfl
  | .str _ => rfl
  | .arr xs => by rw [deepCopy, deepCopyList_eq xs]
  | .obj fs => by rw [deepCopy, deepCopyFields_eq fs]

theorem deepCopyList_eq : ∀ xs : List Json, deepCopyList xs = xs
  | [] => rfl
  | x :: xs => by rw [deepCopyList, deepCopy_eq x, deepCopyList_eq xs]

theorem deepCopyFields_eq : ∀ fs : List (String × Json), deepCopyFields fs = fs
  | [] => rfl
  | p :: fs => by rw [deepCopyFields, deepCopy_eq p.2, deepCopyFields_eq fs]

end

theorem deepCopyObj_eq (o : Obj) : deepCopyObj o = o := deepCopyFields_eq o

/-! ## Circuit-breaker lemmas -/

theorem applyFailures_nil (cb : CircuitBreaker) (s : TierState) :
    applyFailures cb [] s = s := rfl

theorem applyFailures_cons (cb : CircuitBreaker) (t : ℚ) (ts : List ℚ) (s : TierState) :
    applyFailures cb (t :: ts) s = applyFailures cb ts (record_failure cb t s) := rfl

theorem applyFailures_append (cb : CircuitBreaker) (l1 l2 : List ℚ) (s : TierState) :
    applyFailures cb (l1 ++ l2) s = applyFailures cb l2 (applyFailures cb l1 s) := by
  simp [applyFailures, List.foldl_append]

theorem applyFailures_closed (cb : CircuitBreaker) :
    ∀ (ts : List ℚ) (kk : Nat), kk + ts.length < cb.threshold →
      applyFailures cb ts ⟨kk, none⟩ = ⟨kk + ts.length, none⟩ := by
  intro ts
  induction ts with
  | nil => intro kk _; simp [applyFailures]
  | cons t ts ih =>
    intro kk h
    have hlen : (t :: ts).length = ts.length + 1 := rfl
    rw [hlen] at h
    have step : record_failure cb t ⟨kk, none⟩ = ⟨kk + 1, none⟩ := by
      have hc : ¬(cb.threshold ≤ (⟨kk, none⟩ : TierState).failures + 1
          ∧ (⟨kk, none⟩ : TierState).openedAt = none) := by
        intro hc
        exact absurd hc.1 (by simp; omega)
      rw [record_failure, if_neg hc]
    rw [applyFailures_cons, step, ih (kk + 1) (by omega)]
    have : kk + 1 + ts.length = kk + (ts.length + 1) := by omega
    rw [this, hlen]

theorem applyFailures_opens (cb : CircuitBreaker) (hthr : 0 < cb.threshold)
    (ts : List ℚ) (hlen : ts.length = cb.threshold) (hne : ts ≠ []) :
    applyFailures cb ts initialTierState = ⟨cb.threshold, some (ts.getLast hne)⟩ := by
  conv_lhs => rw [← List.dropLast_append_getLast hne]
  rw [applyFailures_append]
  have hdl : ts.dropLast.length = cb.threshold - 1 := by
    rw [List.length_dropLast, hlen]
  have hclosed := applyFailures_closed cb ts.dropLast 0 (by rw [hdl]; omega)
  rw [show initialTierState = (⟨0, none⟩ : TierState) from rfl, hclosed]
  rw [applyFailures_cons, applyFailures_nil]
  have hc : cb.threshold ≤ (⟨0 + ts.dropLast.length, none⟩ : TierState).failures + 1
      ∧ (⟨0 + ts.dropLast.length, none⟩ : TierState).openedAt = none := by
    refine ⟨?_, rfl⟩
    simp [hdl]
    omega
  rw [record_failure, if_pos hc]
  have : (⟨0 + ts.dropLast.length, none⟩ : TierState).failures + 1 = cb.threshold := by
    simp [hdl]; omega
  rw [this]

/-- C2: for every tier, after exactly `threshold` consecutive
`record_failure` calls with no intervening `record_success`, `is_open`
returns true (while the recovery window has not yet elapsed); any
`record_success` resets the failure count to 0 (in particular before the
threshold is reached); once open, `is_open` returns false again exactly
when `recovery_time` has elapsed since the circuit opened, and that same
call resets the failure count to 0 and clears the opened timestamp. -/
theorem c2_circuit_breaker (cb : CircuitBreaker) (hthr : 0 < cb.threshold)
    (ts : List ℚ) (hlen : ts.length = cb.threshold) (hne : ts ≠ [])
    (now : ℚ) (hrec : now - ts.getLast hne < cb.recovery_time)
    (s : TierState) (t0 : ℚ) :
    ((applyFailures cb ts initialTierState).openedAt = some (ts.getLast hne)
      ∧ (is_open cb now (applyFailures cb ts initialTierState)).1 = true)
    ∧ record_success s = ⟨0, none⟩
    ∧ (s.openedAt = some t0 →
        (((is_open cb now s).1 = false ↔ cb.recovery_time ≤ now - t0)
          ∧ (cb.recovery_time ≤ now - t0 → (is_open cb now s).2 = ⟨0, none⟩))) := by
  refine ⟨⟨?_, ?_⟩, rfl, ?_⟩
  · rw [applyFailures_opens cb hthr ts hlen hne]
  · rw [applyFailures_opens cb hthr ts hlen hne]
    simp [is_open, not_le.mpr hrec]
  · intro hso
    constructor
    · by_cases hc : cb.recovery_time ≤ now - t0 <;> simp [is_open, hso, hc]
    · intro hc
      simp [is_open, hso, hc]

/-- Witness for C2 at a concrete breaker (threshold 2, recovery 5),
failure times 0 and 1, clock reading 2 and an open state. -/
theorem c2_circuit_breaker_witness :
    ((0 < 2 ∧ ([(0 : ℚ), 1] : List ℚ).length = 2 ∧ (2 : ℚ) - 1 < 5))
      ∧ (((applyFailures ⟨2, 5⟩ [(0 : ℚ), 1] initialTierState).openedAt = some 1
            ∧ (is_open ⟨2, 5⟩ 2 (applyFailures ⟨2, 5⟩ [(0 : ℚ), 1] initialTierState)).1 = true)
          ∧ record_success ⟨7, some 0⟩ = ⟨0, none⟩
          ∧ ((⟨7, some 0⟩ : TierState).openedAt = some 0 →
              (((is_open ⟨2, 5⟩ 2 ⟨7, some 0⟩).1 = false ↔ (5 : ℚ) ≤ 2 - 0)
                ∧ ((5 : ℚ) ≤ 2 - 0 → (is_open ⟨2, 5⟩ 2 ⟨7, some 0⟩).2 = ⟨0, none⟩)))) :=
  ⟨⟨by norm_num, by simp, by norm_num⟩,
    c2_circuit_breaker ⟨2, 5⟩ (by norm_num) [(0 : ℚ), 1] (by simp)
      (by simp) 2 (by norm_num) ⟨7, some 0⟩ 0⟩

/-- C4: tier detection is a pure function of the lowercased model name,
with first-match-wins priority opus → sonnet → haiku, then the legacy
`glm` prefix rule mapping to sonnet, then none. -/
theorem c4_tier_detection (s : String) :
    (containsSub "opus" (strLower s) = true → detect_tier s = some Tier.opus)
    ∧ (containsSub "opus" (strLower s) = false → containsSub "sonnet" (strLower s) = true →
        detect_tier s = some Tier.sonnet)
    ∧ (containsSub "opus" (strLower s) = false → containsSub "sonnet" (strLower s) = false →
        containsSub "haiku" (strLower s) = true → detect_tier s = some Tier.haiku)
    ∧ (containsSub "opus" (strLower s) = false → containsSub "sonnet" (strLower s) = false →
        containsSub "haiku" (strLower s) = false → pyStartsWith (strLower s) "glm" = true →
        detect_tier s = some Tier.sonnet)
    ∧ (containsSub "opus" (strLower s) = false → containsSub "sonnet" (strLower s) = false →
        containsSub "haiku" (strLower s) = false → pyStartsWith (strLower s) "glm" = false →
        detect_tier s = none) := by
  refine ⟨?_, ?_, ?_, ?_, ?_⟩ <;> intros <;> simp [detect_tier, *]

/-- Witness for C4 at the spec's example name, which contains both
`sonnet` and `opus` and resolves to opus. -/
theorem c4_tier_detection_witness :
    containsSub "opus" (strLower "claude-3-5-sonnet-opus-test") = true
      ∧ detect_tier "claude-3-5-sonnet-opus-test" = some Tier.opus :=
  ⟨by decide, (c4_tier_detection "claude-3-5-sonnet-opus-test").1 (by decide)⟩

/-! ## Fallback-payload bookkeeping for the retry loop -/

theorem popFb_snd_fbPayloads (snap : Obj) (st : LoopState) :
    ((popFb snap st).2).fbPayloads = st.fbPayloads ++ [snap] := by
  cases hq : st.fbq <;> simp [popFb, hq]

theorem popFb_snd_sends (snap : Obj) (st : LoopState) :
    ((popFb snap st).2).sends = st.sends := by
  cases hq : st.fbq <;> simp [popFb, hq]

theorem popFb_snd_fails (snap : Obj) (st : LoopState) :
    ((popFb snap st).2).fails = st.fails := by
  cases hq : st.fbq <;> simp [popFb, hq]

theorem fb_or_step {p snap : Obj} {l : List Obj}
    (h : p ∈ l ++ [snap] ∨ p = snap) : p ∈ l ∨ p = snap := by
  rcases h with h | h
  · rcases List.mem_append.mp h with h | h
    · exact Or.inl h
    · right; simpa using h
  · exact Or.inr h

theorem nsTimeoutExhaust_fb_mem {z : Bool} {snap : Obj} {st : LoopState} {p : Obj}
    (hp : p ∈ (nsTimeoutExhaust z snap st).final.fbPayloads) :
    p ∈ st.fbPayloads ∨ p = snap := by
  unfold nsTimeoutExhaust at hp
  split at hp
  · split at hp <;> (rw [popFb_snd_fbPayloads] at hp; exact fb_or_step (Or.inl hp))
  · exact Or.inl hp

theorem runNS_fb_mem (z : Bool) (snap : Obj) :
    ∀ (outs : List SendOutcome) (a : Nat) (st : LoopState) (p : Obj),
      p ∈ (runNS z snap outs a st).final.fbPayloads → p ∈ st.fbPayloads ∨ p = snap := by
  intro outs
  induction outs with
  | nil => intro a st p hp; exact Or.inl hp
  | cons o rest ih =>
    intro a st p hp
    cases o with
    | http status body retryAfter =>
      simp only [runNS] at hp
      split at hp
      · have h2 := ih _ _ _ hp
        exact h2
      · split at hp
        · split at hp
          · have h3 : p ∈ ((popFb snap
                { st with sends := st.sends + 1, fails := st.fails + 1 }).2).fbPayloads ∨
                  p = snap := Or.inl hp
            rw [popFb_snd_fbPayloads] at h3
            exact fb_or_step h3
          · split at hp
            · have h2 := ih _ _ _ hp
              have h3 : p ∈ ((popFb snap
                  { st with sends := st.sends + 1, fails := st.fails + 1 }).2).fbPayloads ∨
                    p = snap := h2
              rw [popFb_snd_fbPayloads] at h3
              exact fb_or_step h3
            · have h2 := nsTimeoutExhaust_fb_mem hp
              have h3 : p ∈ ((popFb snap
                  { st with sends := st.sends + 1, fails := st.fails + 1 }).2).fbPayloads ∨
                    p = snap := h2
              rw [popFb_snd_fbPayloads] at h3
              exact fb_or_step h3
          · split at hp
            · have h2 := ih _ _ _ hp
              have h3 : p ∈ ((popFb snap
                  { st with sends := st.sends + 1, fails := st.fails + 1 }).2).fbPayloads ∨
                    p = snap := h2
              rw [popFb_snd_fbPayloads] at h3
              exact fb_or_step h3
            · have h3 : p ∈ ((popFb snap
                  { st with sends := st.sends + 1, fails := st.fails + 1 }).2).fbPayloads ∨
                    p = snap := Or.inl hp
              rw [popFb_snd_fbPayloads] at h3
              exact fb_or_step h3
          · split at hp
            · have h2 := ih _ _ _ hp
              have h3 : p ∈ ((popFb snap
                  { st with sends := st.sends + 1, fails := st.fails + 1 }).2).fbPayloads ∨
                    p = snap := h2
              rw [popFb_snd_fbPayloads] at h3
              exact fb_or_step h3
            · have h3 : p ∈ ((popFb snap
                  { st with sends := st.sends + 1, fails := st.fails + 1 }).2).fbPayloads ∨
                    p = snap := Or.inl hp
              rw [popFb_snd_fbPayloads] at h3
              exact fb_or_step h3
        · split at hp
          · exact Or.inl hp
          · exact Or.inl hp
    | readTimeout =>
      simp only [runNS] at hp
      cases z with
      | false =>
        split at hp
        · have h2 := ih _ _ _ hp
          exact h2
        · have h2 := nsTimeoutExhaust_fb_mem hp
          exact h2
      | true =>
        split at hp
        · have h2 := ih _ _ _ hp
          exact h2
        · have h2 := nsTimeoutExhaust_fb_mem hp
          exact h2
    | connectTimeout =>
      simp only [runNS] at hp
      split at hp
      · have h2 := ih _ _ _ hp
        exact h2
      · exact Or.inl hp
    | otherError =>
      simp only [runNS] at hp
      split at hp
      · have h2 := ih _ _ _ hp
        exact h2
      · exact Or.inl hp

theorem runStream_fb_mem (z : Bool) (snap : Obj) :
    ∀ (outs : List SendOutcome) (a : Nat) (st : LoopState) (p : Obj),
      p ∈ (runStream z snap outs a st).final.fbPayloads → p ∈ st.fbPayloads ∨ p = snap := by
  intro outs
  induction outs with
  | nil => intro a st p hp; exact Or.inl hp
  | cons o rest ih =>
    intro a st p hp
    cases o with
    | http status body retryAfter =>
      simp only [runStream] at hp
      split at hp
      · split at hp
        · split at hp
          · split at hp
            · have h3 : p ∈ ((popFb snap
                  { st with sends := st.sends + 1, fails := st.fails + 1 }).2).fbPayloads ∨
                    p = snap := Or.inl hp
              rw [popFb_snd_fbPayloads] at h3
              exact fb_or_step h3
            · have h3 : p ∈ ((popFb snap
                  { st with sends := st.sends + 1, fails := st.fails + 1 }).2).fbPayloads ∨
                    p = snap := Or.inl hp
              rw [popFb_snd_fbPayloads] at h3
              exact fb_or_step h3
          · split at hp
            · have h2 := ih _ _ _ hp
              have h3 : p ∈ ((popFb snap
                  { st with sends := st.sends + 1, fails := st.fails + 1 }).2).fbPayloads ∨
                    p = snap := h2
              rw [popFb_snd_fbPayloads] at h3
              exact fb_or_step h3
            · have h2 := nsTimeoutExhaust_fb_mem hp
              have h3 : p ∈ ((popFb snap
                  { st with sends := st.sends + 1, fails := st.fails + 1 }).2).fbPayloads ∨
                    p = snap := h2
              rw [popFb_snd_fbPayloads] at h3
              exact fb_or_step h3
          · split at hp
            · have h2 := ih _ _ _ hp
              have h3 : p ∈ ((popFb snap
                  { st with sends := st.sends + 1, fails := st.fails + 1 }).2).fbPayloads ∨
                    p = snap := h2
              rw [popFb_snd_fbPayloads] at h3
              exact fb_or_step h3
            · have h3 : p ∈ ((popFb snap
                  { st with sends := st.sends + 1, fails := st.fails + 1 }).2).fbPayloads ∨
                    p = snap := Or.inl hp
              rw [popFb_snd_fbPayloads] at h3
              exact fb_or_step h3
          · split at hp
            · have h2 := ih _ _ _ hp
              have h3 : p ∈ ((popFb snap
                  { st with sends := st.sends + 1, fails := st.fails + 1 }).2).fbPayloads ∨
                    p = snap := h2
              rw [popFb_snd_fbPayloads] at h3
              exact fb_or_step h3
            · have h3 : p ∈ ((popFb snap
                  { st with sends := st.sends + 1, fails := st.fails + 1 }).2).fbPayloads ∨
                    p = snap := Or.inl hp
              rw [popFb_snd_fbPayloads] at h3
              exact fb_or_step h3
        · exact Or.inl hp
      · split at hp
        · exact Or.inl hp
        · exact Or.inl hp
    | readTimeout =>
      simp only [runStream] at hp
      split at hp
      · have h2 := ih _ _ _ hp
        exact h2
      · exact Or.inl hp
    | connectTimeout =>
      simp only [runStream] at hp
      split at hp
      · have h2 := ih _ _ _ hp
        exact h2
      · exact Or.inl hp
    | otherError =>
      simp only [runStream] at hp
      split at hp
      · have h2 := ih _ _ _ hp
        exact h2
      · exact Or.inl hp

/-- C1: on every fallback path — masked upstream failure (streaming or
buffered) and read-timeout exhaustion — the payload sent to the primary
provider is structurally identical to the payload received at ingress;
the ingress snapshot is a deep copy taken before the model rewrite and
before sanitization, and sanitization never mutates it. -/
theorem c1_fallback_payload_integrity (cfg : Cfg) (cbOpen : Tier → Bool) (data : Obj)
    (outs : List SendOutcome) (fbq : List FbOutcome) (p : Obj)
    (hp : p ∈ (proxy_messages cfg cbOpen data outs fbq).result.final.fbPayloads) :
    p = data := by
  simp only [proxy_messages] at hp
  split at hp
  · have h2 := runStream_fb_mem _ _ _ _ _ p hp
    rcases h2 with h | h
    · simp [initState] at h
    · rw [h]
      exact deepCopyObj_eq data
  · have h2 := runNS_fb_mem _ _ _ _ _ p hp
    rcases h2 with h | h
    · simp [initState] at h
    · rw [h]
      exact deepCopyObj_eq data

/-- Witness for C1: a non-streaming Z.AI-routed request whose single
attempt yields a masked 400 makes exactly one primary fallback call, and
its payload is the ingress payload. -/
theorem c1_fallback_payload_integrity_witness :
    ([(("model" : String), Json.str "claude-sonnet-4")] : Obj)
        ∈ (proxy_messages ⟨none, some "zai", none, "glm-5"⟩ (fun _ => false)
            [(("model" : String), Json.str "claude-sonnet-4")]
            [.http 400 "x \"code\":\"500\" x" none] [.resp 200 "ok"]).result.final.fbPayloads
      ∧ ([(("model" : String), Json.str "claude-sonnet-4")] : Obj)
          = [(("model" : String), Json.str "claude-sonnet-4")] :=
  ⟨by exact List.mem_singleton.mpr rfl,
    c1_fallback_payload_integrity ⟨none, some "zai", none, "glm-5"⟩ (fun _ => false)
      [(("model" : String), Json.str "claude-sonnet-4")]
      [.http 400 "x \"code\":\"500\" x" none] [.resp 200 "ok"]
      [(("model" : String), Json.str "claude-sonnet-4")]
      (by exact List.mem_singleton.mpr rfl)⟩

/-- C9: a request whose tools list contains a web-search-typed entry
always resolves to the primary provider — whatever the tier, circuit
state, or secondary configuration — and its payload (including the model
name) is forwarded untouched: no rewrite, no sanitization. -/
theorem c9_web_search_bypass (cfg : Cfg) (cbOpen : Tier → Bool) (data : Obj)
    (outs : List SendOutcome) (fbq : List FbOutcome)
    (_hmodel : modelFieldOk data = true)
    (hws : has_web_search data = true) :
    (proxy_messages cfg cbOpen data outs fbq).target = Target.primary
      ∧ (proxy_messages cfg cbOpen data outs fbq).sentPayload = data := by
  have hroute : resolveRoute cfg cbOpen data = (Target.primary, data) := by
    unfold resolveRoute
    cases hc : get_provider_config cfg (getModelName data) with
    | none => rfl
    | some tier =>
      have hb : (bypass_reason data).isSome = true := by
        simp [bypass_reason, hws]
      simp [hb]
  constructor
  · simp [proxy_messages, hroute]
  · simp [proxy_messages, hroute]

/-- Witness for C9: a sonnet-tier request with a configured secondary,
an open circuit, and a web-search tool still goes to primary with the
payload untouched. -/
theorem c9_web_search_bypass_witness :
    modelFieldOk [(("model" : String), Json.str "claude-sonnet-4"),
        (("tools" : String), Json.arr [Json.obj [(("type" : String), Json.str "web_search_20250305")]])] = true
      ∧ has_web_search [(("model" : String), Json.str "claude-sonnet-4"),
          (("tools" : String), Json.arr [Json.obj [(("type" : String), Json.str "web_search_20250305")]])] = true
      ∧ ((proxy_messages ⟨none, some "zai", none, "glm-5"⟩ (fun _ => true)
            [(("model" : String), Json.str "claude-sonnet-4"),
              (("tools" : String), Json.arr [Json.obj [(("type" : String), Json.str "web_search_20250305")]])]
            [] []).target = Target.primary
          ∧ (proxy_messages ⟨none, some "zai", none, "glm-5"⟩ (fun _ => true)
              [(("model" : String), Json.str "claude-sonnet-4"),
                (("tools" : String), Json.arr [Json.obj [(("type" : String), Json.str "web_search_20250305")]])]
              [] []).sentPayload
            = [(("model" : String), Json.str "claude-sonnet-4"),
                (("tools" : String), Json.arr [Json.obj [(("type" : String), Json.str "web_search_20250305")]])]) :=
  ⟨rfl, by decide,
    c9_web_search_bypass ⟨none, some "zai", none, "glm-5"⟩ (fun _ => true)
      [(("model" : String), Json.str "claude-sonnet-4"),
        (("tools" : String), Json.arr [Json.obj [(("type" : String), Json.str "web_search_20250305")]])]
      [] [] rfl (by decide)⟩

/-! ## Timeout-exhaustion behaviour of the retry loop -/

theorem runNS_rt_zai (snap : Obj) :
    ∀ (n a : Nat) (st : LoopState),
      runNS true snap (List.replicate (n + 1) SendOutcome.readTimeout) a st
        = nsTimeoutExhaust true snap
            ⟨st.sends + (n + 1), st.fails + (n + 1), st.succs,
              st.sleeps ++ backoffs a n, st.fbPayloads, st.fbq⟩ := by
  intro n
  induction n with
  | zero =>
    intro a st
    rw [show backoffs a 0 = [] from rfl, List.append_nil]
    rfl
  | succ n ih =>
    intro a st
    rw [show List.replicate (n + 1 + 1) SendOutcome.readTimeout
        = SendOutcome.readTimeout :: List.replicate (n + 1) SendOutcome.readTimeout from rfl]
    rw [show runNS true snap
          (SendOutcome.readTimeout :: List.replicate (n + 1) SendOutcome.readTimeout) a st
        = runNS true snap (List.replicate (n + 1) SendOutcome.readTimeout) (a + 1)
            ⟨st.sends + 1, st.fails + 1, st.succs, st.sleeps ++ [Delay.backoff a],
              st.fbPayloads, st.fbq⟩ from rfl]
    rw [ih (a + 1) ⟨st.sends + 1, st.fails + 1, st.succs, st.sleeps ++ [Delay.backoff a],
      st.fbPayloads, st.fbq⟩]
    congr 1
    simp [LoopState.mk.injEq, List.append_assoc, List.singleton_append, backoffs]
    all_goals omega

theorem runNS_rt_primary (snap : Obj) :
    ∀ (n a : Nat) (st : LoopState),
      runNS false snap (List.replicate (n + 1) SendOutcome.readTimeout) a st
        = ⟨.gatewayTimeout,
            ⟨st.sends + (n + 1), st.fails, st.succs,
              st.sleeps ++ backoffs a n, st.fbPayloads, st.fbq⟩⟩ := by
  intro n
  induction n with
  | zero =>
    intro a st
    rw [show backoffs a 0 = [] from rfl, List.append_nil]
    rfl
  | succ n ih =>
    intro a st
    rw [show List.replicate (n + 1 + 1) SendOutcome.readTimeout
        = SendOutcome.readTimeout :: List.replicate (n + 1) SendOutcome.readTimeout from rfl]
    rw [show runNS false snap
          (SendOutcome.readTimeout :: List.replicate (n + 1) SendOutcome.readTimeout) a st
        = runNS false snap (List.replicate (n + 1) SendOutcome.readTimeout) (a + 1)
            ⟨st.sends + 1, st.fails, st.succs, st.sleeps ++ [Delay.backoff a],
              st.fbPayloads, st.fbq⟩ from rfl]
    rw [ih (a + 1) ⟨st.sends + 1, st.fails, st.succs, st.sleeps ++ [Delay.backoff a],
      st.fbPayloads, st.fbq⟩]
    congr 1
    simp [LoopState.mk.injEq, List.append_assoc, List.singleton_append, backoffs]
    all_goals omega

theorem runNS_ct (z : Bool) (snap : Obj) :
    ∀ (n a : Nat) (st : LoopState),
      runNS z snap (List.replicate (n + 1) SendOutcome.connectTimeout) a st
        = ⟨.gatewayTimeout,
            ⟨st.sends + (n + 1), st.fails, st.succs,
              st.sleeps ++ backoffs a n, st.fbPayloads, st.fbq⟩⟩ := by
  intro n
  induction n with
  | zero =>
    intro a st
    rw [show backoffs a 0 = [] from rfl, List.append_nil]
    rfl
  | succ n ih =>
    intro a st
    rw [show List.replicate (n + 1 + 1) SendOutcome.connectTimeout
        = SendOutcome.connectTimeout :: List.replicate (n + 1) SendOutcome.connectTimeout from rfl]
    rw [show runNS z snap
          (SendOutcome.connectTimeout :: List.replicate (n + 1) SendOutcome.connectTimeout) a st
        = runNS z snap (List.replicate (n + 1) SendOutcome.connectTimeout) (a + 1)
            ⟨st.sends + 1, st.fails, st.succs, st.sleeps ++ [Delay.backoff a],
              st.fbPayloads, st.fbq⟩ from rfl]
    rw [ih (a + 1) ⟨st.sends + 1, st.fails, st.succs, st.sleeps ++ [Delay.backoff a],
      st.fbPayloads, st.fbq⟩]
    congr 1
    simp [LoopState.mk.injEq, List.append_assoc, List.singleton_append, backoffs]
    all_goals omega

theorem runStream_timeouts (z : Bool) (snap : Obj) :
    ∀ (outs : List SendOutcome), outs ≠ [] →
      (∀ o ∈ outs, o = SendOutcome.readTimeout ∨ o = SendOutcome.connectTimeout) →
      ∀ (a : Nat) (st : LoopState),
        runStream z snap outs a st
          = ⟨.gatewayTimeout,
              ⟨st.sends + outs.length, st.fails, st.succs,
                st.sleeps ++ backoffs a (outs.length - 1), st.fbPayloads, st.fbq⟩⟩ := by
  intro outs
  induction outs with
  | nil => intro h; cases h rfl
  | cons o rest ih =>
    intro _ hall a st
    have ho := hall o (by simp)
    cases rest with
    | nil =>
      rcases ho with ho | ho <;> subst ho <;>
        · simp only [List.length_singleton]
          rw [show backoffs a (1 - 1) = [] from rfl, List.append_nil]
          rfl
    | cons o2 rest2 =>
      have hstep : runStream z snap (o :: o2 :: rest2) a st
          = runStream z snap (o2 :: rest2) (a + 1)
              ⟨st.sends + 1, st.fails, st.succs, st.sleeps ++ [Delay.backoff a],
                st.fbPayloads, st.fbq⟩ := by
        rcases ho with ho | ho <;> subst ho <;> rfl
      rw [hstep, ih (by simp) (fun o3 ho3 => hall o3 (by simp [ho3])) (a + 1)
        ⟨st.sends + 1, st.fails, st.succs, st.sleeps ++ [Delay.backoff a],
          st.fbPayloads, st.fbq⟩]
      congr 1
      simp [LoopState.mk.injEq, List.append_assoc, List.singleton_append, backoffs,
        List.length_cons]
      all_goals omega

/-- C3 counterexample: a streaming request routed to the secondary whose
every attempt raises a read timeout is answered with 504 and makes no
primary call at all, contradicting the claim that read-timeout exhaustion
on the secondary target always yields exactly one unretried primary call
(the claim asserted this "for both streaming and non-streaming"). -/
theorem c3_counterexample :
    (proxy_messages ⟨none, some "zai", none, "glm-5"⟩ (fun _ => false)
        [(("model" : String), Json.str "claude-sonnet-4"), (("stream" : String), Json.bool true)]
        [.readTimeout, .readTimeout, .readTimeout] [.resp 200 "ok"]).target
      = Target.secondary Tier.sonnet
    ∧ (proxy_messages ⟨none, some "zai", none, "glm-5"⟩ (fun _ => false)
        [(("model" : String), Json.str "claude-sonnet-4"), (("stream" : String), Json.bool true)]
        [.readTimeout, .readTimeout, .readTimeout] [.resp 200 "ok"]).result.response
      = ProxyResponse.gatewayTimeout
    ∧ (proxy_messages ⟨none, some "zai", none, "glm-5"⟩ (fun _ => false)
        [(("model" : String), Json.str "claude-sonnet-4"), (("stream" : String), Json.bool true)]
        [.readTimeout, .readTimeout, .readTimeout] [.resp 200 "ok"]).result.final.fbPayloads
      = [] :=
  ⟨rfl, rfl, rfl⟩

/-- C3 (amended): transport-timeout handling of the send loop.  Every
combination is retried up to the attempt bound with a computed backoff
delay per retried attempt, but the single unretried fallback call to the
primary provider with the untouched snapshot happens only for
non-streaming read timeouts on the secondary route (with 504 if the
fallback call itself raises); connect-timeout exhaustion (either mode),
streaming timeout exhaustion (either kind), and read-timeout exhaustion on
a primary-routed request are all answered 504 with no fallback call. -/
theorem c3_timeout_retry_fallback (snap : Obj) (n : Nat) (s2 : Nat) (b2 : String)
    (fbq2 : List FbOutcome) (zz : Bool)
    (outsS : List SendOutcome) (hS : outsS ≠ [])
    (hSall : ∀ o ∈ outsS, o = SendOutcome.readTimeout ∨ o = SendOutcome.connectTimeout) :
    ((runNS true snap (List.replicate (n + 1) .readTimeout) 0
        (initState (FbOutcome.resp s2 b2 :: fbq2))).final.fbPayloads = [snap]
      ∧ (runNS true snap (List.replicate (n + 1) .readTimeout) 0
          (initState (FbOutcome.resp s2 b2 :: fbq2))).final.sends = n + 1
      ∧ (runNS true snap (List.replicate (n + 1) .readTimeout) 0
          (initState (FbOutcome.resp s2 b2 :: fbq2))).final.sleeps = backoffs 0 n
      ∧ (runNS true snap (List.replicate (n + 1) .readTimeout) 0
          (initState (FbOutcome.resp s2 b2 :: fbq2))).response
          = ProxyResponse.upstream s2 b2 true)
    ∧ ((runNS true snap (List.replicate (n + 1) .readTimeout) 0
          (initState (FbOutcome.raiseReadTimeout :: fbq2))).response
          = ProxyResponse.gatewayTimeout
      ∧ (runNS true snap (List.replicate (n + 1) .readTimeout) 0
          (initState (FbOutcome.raiseReadTimeout :: fbq2))).final.fbPayloads = [snap])
    ∧ ((runNS zz snap (List.replicate (n + 1) .connectTimeout) 0
          (initState (FbOutcome.resp s2 b2 :: fbq2))).response = ProxyResponse.gatewayTimeout
      ∧ (runNS zz snap (List.replicate (n + 1) .connectTimeout) 0
          (initState (FbOutcome.resp s2 b2 :: fbq2))).final.fbPayloads = [])
    ∧ ((runNS false snap (List.replicate (n + 1) .readTimeout) 0
          (initState (FbOutcome.resp s2 b2 :: fbq2))).response = ProxyResponse.gatewayTimeout
      ∧ (runNS false snap (List.replicate (n + 1) .readTimeout) 0
          (initState (FbOutcome.resp s2 b2 :: fbq2))).final.fbPayloads = [])
    ∧ ((runStream zz snap outsS 0 (initState (FbOutcome.resp s2 b2 :: fbq2))).response
          = ProxyResponse.gatewayTimeout
      ∧ (runStream zz snap outsS 0 (initState (FbOutcome.resp s2 b2 :: fbq2))).final.fbPayloads
          = []
      ∧ (runStream zz snap outsS 0 (initState (FbOutcome.resp s2 b2 :: fbq2))).final.sends
          = outsS.length) := by
  refine ⟨?_, ?_, ?_, ?_, ?_⟩
  · rw [runNS_rt_zai]
    simp [nsTimeoutExhaust, popFb, initState]
  · rw [runNS_rt_zai]
    simp [nsTimeoutExhaust, popFb, initState]
  · rw [runNS_ct]
    simp [initState]
  · rw [runNS_rt_primary]
    simp [initState]
  · rw [runStream_timeouts zz snap outsS hS hSall]
    simp [initState]

/-- Witness for C3 (amended) at a concrete mixed timeout script. -/
theorem c3_timeout_retry_fallback_witness :
    ([SendOutcome.readTimeout, SendOutcome.connectTimeout] : List SendOutcome) ≠ []
      ∧ (∀ o ∈ ([SendOutcome.readTimeout, SendOutcome.connectTimeout] : List SendOutcome),
          o = SendOutcome.readTimeout ∨ o = SendOutcome.connectTimeout)
      ∧ (runNS true [(("k" : String), Json.null)] (List.replicate (2 + 1) .readTimeout) 0
          (initState [FbOutcome.resp 200 "ok"])).response
          = ProxyResponse.upstream 200 "ok" true :=
  ⟨by simp, by decide,
    (c3_timeout_retry_fallback [(("k" : String), Json.null)] 2 200 "ok" [] true
      [SendOutcome.readTimeout, SendOutcome.connectTimeout] (by simp) (by decide)).1.2.2.2⟩

/-! ## Masked upstream failures (C6) -/

/-- C6 counterexample: a non-streaming secondary response with status 422
whose body carries the embedded internal-error marker is returned to the
client verbatim — no circuit failure is recorded and no primary call is
made — although the claim asserts masked-failure handling for the full
HTTP ≥400 range on both paths. -/
theorem c6_counterexample :
    hasCode500 "x \"code\":\"500\" x" = true
    ∧ (proxy_messages ⟨none, some "zai", none, "glm-5"⟩ (fun _ => false)
        [(("model" : String), Json.str "claude-sonnet-4")]
        [.http 422 "x \"code\":\"500\" x" none] [.resp 200 "ok"]).target
      = Target.secondary Tier.sonnet
    ∧ (proxy_messages ⟨none, some "zai", none, "glm-5"⟩ (fun _ => false)
        [(("model" : String), Json.str "claude-sonnet-4")]
        [.http 422 "x \"code\":\"500\" x" none] [.resp 200 "ok"]).result.response
      = ProxyResponse.upstream 422 "x \"code\":\"500\" x" false
    ∧ (proxy_messages ⟨none, some "zai", none, "glm-5"⟩ (fun _ => false)
        [(("model" : String), Json.str "claude-sonnet-4")]
        [.http 422 "x \"code\":\"500\" x" none] [.resp 200 "ok"]).result.final.fbPayloads = []
    ∧ (proxy_messages ⟨none, some "zai", none, "glm-5"⟩ (fun _ => false)
        [(("model" : String), Json.str "claude-sonnet-4")]
        [.http 422 "x \"code\":\"500\" x" none] [.resp 200 "ok"]).result.final.fails = 0 :=
  ⟨rfl, rfl, rfl, rfl, rfl⟩

/-- C6 (amended): a secondary send whose body contains the embedded
internal-error marker triggers the masked-failure handling — one recorded
circuit failure and exactly one unretried primary call with the snapshot —
for the full ≥400 status range on the streaming path, but only for
statuses 400, 500, 502 and 503 on the non-streaming path; a non-streaming
marked body with any other ≥400 status is returned verbatim with no
fallback and no circuit effect. -/
theorem c6_masked_error_fallback (snap : Obj) (status : Nat) (body : String)
    (ra : Option String) (rest : List SendOutcome) (s2 : Nat) (b2 : String)
    (fbq2 : List FbOutcome)
    (hcode : hasCode500 body = true) :
    (400 ≤ status →
      ((runStream true snap (.http status body ra :: rest) 0
          (initState (FbOutcome.resp s2 b2 :: fbq2))).final.fails = 1
        ∧ (runStream true snap (.http status body ra :: rest) 0
            (initState (FbOutcome.resp s2 b2 :: fbq2))).final.fbPayloads = [snap]
        ∧ (runStream true snap (.http status body ra :: rest) 0
            (initState (FbOutcome.resp s2 b2 :: fbq2))).final.sends = 1
        ∧ (s2 < 400 →
            (runStream true snap (.http status body ra :: rest) 0
              (initState (FbOutcome.resp s2 b2 :: fbq2))).response
              = ProxyResponse.streamRelay true)
        ∧ (400 ≤ s2 →
            (runStream true snap (.http status body ra :: rest) 0
              (initState (FbOutcome.resp s2 b2 :: fbq2))).response
              = ProxyResponse.upstream s2 b2 true)))
    ∧ (zaiErrStatus status = true →
      ((runNS true snap (.http status body ra :: rest) 0
          (initState (FbOutcome.resp s2 b2 :: fbq2))).final.fails = 1
        ∧ (runNS true snap (.http status body ra :: rest) 0
            (initState (FbOutcome.resp s2 b2 :: fbq2))).final.fbPayloads = [snap]
        ∧ (runNS true snap (.http status body ra :: rest) 0
            (initState (FbOutcome.resp s2 b2 :: fbq2))).final.sends = 1
        ∧ (runNS true snap (.http status body ra :: rest) 0
            (initState (FbOutcome.resp s2 b2 :: fbq2))).response
            = ProxyResponse.upstream s2 b2 true))
    ∧ (400 ≤ status → zaiErrStatus status = false → status ≠ 429 →
        runNS true snap (.http status body ra :: rest) 0
          (initState (FbOutcome.resp s2 b2 :: fbq2))
          = ⟨.upstream status body false,
              ⟨1, 0, 0, [], [], FbOutcome.resp s2 b2 :: fbq2⟩⟩) := by
  refine ⟨?_, ?_, ?_⟩
  · intro hst
    have hred : runStream true snap (.http status body ra :: rest) 0
        (initState (FbOutcome.resp s2 b2 :: fbq2))
        = if s2 < 400 then ⟨.streamRelay true, ⟨1, 1, 0, [], [snap], fbq2⟩⟩
          else ⟨.upstream s2 b2 true, ⟨1, 1, 0, [], [snap], fbq2⟩⟩ := by
      simp only [runStream]
      rw [if_pos hst,
        if_pos (show True ∧ hasCode500 body = true from ⟨trivial, hcode⟩)]
      simp [popFb, initState]
    refine ⟨?_, ?_, ?_, ?_, ?_⟩
    · by_cases h4 : s2 < 400
      · rw [hred, if_pos h4]
      · rw [hred, if_neg h4]
    · by_cases h4 : s2 < 400
      · rw [hred, if_pos h4]
      · rw [hred, if_neg h4]
    · by_cases h4 : s2 < 400
      · rw [hred, if_pos h4]
      · rw [hred, if_neg h4]
    · intro h4
      rw [hred, if_pos h4]
    · intro h4
      rw [hred, if_neg (not_lt.mpr h4)]
  · intro hzs
    have h400 : 400 ≤ status := by
      have h2 := hzs
      simp [zaiErrStatus] at h2
      rcases h2 with h | h | h | h <;> omega
    have h429 : status ≠ 429 := by
      intro h
      rw [h] at hzs
      simp [zaiErrStatus] at hzs
    have hred : runNS true snap (.http status body ra :: rest) 0
        (initState (FbOutcome.resp s2 b2 :: fbq2))
        = ⟨.upstream s2 b2 true, ⟨1, 1, 0, [], [snap], fbq2⟩⟩ := by
      simp only [runNS]
      rw [if_neg (fun hc => h429 hc.1),
        if_pos (show 400 ≤ status ∧ True ∧ is_zai_server_error status body = true from
          ⟨h400, trivial, by simp [is_zai_server_error, hzs, hcode]⟩)]
      simp [popFb, initState]
    exact ⟨by rw [hred], by rw [hred], by rw [hred], by rw [hred]⟩
  · intro h400 hzs h429
    simp only [runNS]
    rw [if_neg (fun hc => h429 hc.1),
      if_neg (fun hc => by simp [is_zai_server_error, hzs] at hc),
      if_neg (fun hc => absurd hc.1 (not_lt.mpr h400))]
    rfl

/-- Witness for C6 (amended) at status 503 and the spaced marker
variant. -/
theorem c6_masked_error_fallback_witness :
    hasCode500 "x \"code\": \"500\" x" = true
      ∧ zaiErrStatus 503 = true
      ∧ (runNS true [(("k" : String), Json.null)]
          [.http 503 "x \"code\": \"500\" x" none] 0
          (initState [FbOutcome.resp 200 "ok"])).final.fbPayloads
          = [[(("k" : String), Json.null)]] :=
  ⟨by decide, by decide,
    ((c6_masked_error_fallback [(("k" : String), Json.null)] 503 "x \"code\": \"500\" x"
      none [] 200 "ok" [] (by decide)).2.1 (by decide)).2.1⟩

/-! ## Rate limiting (C7) -/

/-- C7 counterexample: a streaming request routed to the secondary that
receives HTTP 429 (with attempts remaining and a Retry-After header
present) is answered with the 429 body immediately: one send, no sleep, no
retry — although the claim asserts 429 retry behaviour for streaming
requests as well. -/
theorem c7_counterexample :
    (proxy_messages ⟨none, some "zai", none, "glm-5"⟩ (fun _ => false)
        [(("model" : String), Json.str "claude-sonnet-4"), (("stream" : String), Json.bool true)]
        [.http 429 "rate limited" (some "7"), .http 200 "ok" none] []).target
      = Target.secondary Tier.sonnet
    ∧ (proxy_messages ⟨none, some "zai", none, "glm-5"⟩ (fun _ => false)
        [(("model" : String), Json.str "claude-sonnet-4"), (("stream" : String), Json.bool true)]
        [.http 429 "rate limited" (some "7"), .http 200 "ok" none] []).result.response
      = ProxyResponse.upstream 429 "rate limited" false
    ∧ (proxy_messages ⟨none, some "zai", none, "glm-5"⟩ (fun _ => false)
        [(("model" : String), Json.str "claude-sonnet-4"), (("stream" : String), Json.bool true)]
        [.http 429 "rate limited" (some "7"), .http 200 "ok" none] []).result.final.sends = 1
    ∧ (proxy_messages ⟨none, some "zai", none, "glm-5"⟩ (fun _ => false)
        [(("model" : String), Json.str "claude-sonnet-4"), (("stream" : String), Json.bool true)]
        [.http 429 "rate limited" (some "7"), .http 200 "ok" none] []).result.final.sleeps
      = [] :=
  ⟨rfl, rfl, rfl, rfl⟩

/-- C7 (amended): on the non-streaming path a 429 with attempts remaining
is retried, sleeping the upstream Retry-After value when it is present,
non-empty and parses as a Python float (a header that fails `float`, such
as an HTTP-date, raises `ValueError` into the generic handler and sleeps
the computed backoff instead, as does an absent or empty header), and on
exhaustion the upstream 429 body is surfaced unchanged; on the streaming
path a 429 (whose body lacks the masked-error marker) is returned
immediately without retry. -/
theorem c7_rate_limit_retry (z : Bool) (snap : Obj) (body : String) (ra : Option String)
    (v w : String) (rest : List SendOutcome) (a : Nat) (st : LoopState)
    (hrest : rest.isEmpty = false) (hv : v ≠ "") (hpf : pyFloatParses v = true)
    (hw : pyFloatParses w = false) (hcode : hasCode500 body = false) :
    (runNS z snap (.http 429 body ra :: rest) a st
      = runNS z snap rest (a + 1)
          { st with sends := st.sends + 1, sleeps := st.sleeps ++ [delayFor429 ra a] })
    ∧ delayFor429 (some v) a = Delay.retryAfter v
    ∧ delayFor429 (some w) a = Delay.backoff a
    ∧ delayFor429 none a = Delay.backoff a
    ∧ runNS z snap [SendOutcome.http 429 body ra] a st
      = ⟨.upstream 429 body false, { st with sends := st.sends + 1 }⟩
    ∧ runStream z snap (.http 429 body ra :: rest) a st
      = ⟨.upstream 429 body false, { st with sends := st.sends + 1 }⟩ := by
  refine ⟨?_, ?_, ?_, ?_, ?_, ?_⟩
  · simp only [runNS]
    rw [if_pos (show True ∧ rest.isEmpty = false from ⟨trivial, hrest⟩)]
  · simp [delayFor429, String.isEmpty_iff, hv, hpf]
  · simp [delayFor429, hw]
  · rfl
  · cases z <;> rfl
  · cases z with
    | false => rfl
    | true =>
      simp only [runStream]
      rw [if_pos (by norm_num : 400 ≤ 429),
        if_neg (fun hc => absurd hc.2 (by simp [hcode]))]

/-- Witness for C7 (amended) at a concrete request, a numeric header value
and an HTTP-date header value. -/
theorem c7_rate_limit_retry_witness :
    ([SendOutcome.http 200 "ok" none] : List SendOutcome).isEmpty = false
      ∧ ("7" : String) ≠ ""
      ∧ pyFloatParses "7" = true
      ∧ pyFloatParses "Wed, 21 Oct 2015 07:28:00 GMT" = false
      ∧ hasCode500 "rate limited" = false
      ∧ delayFor429 (some "7") 0 = Delay.retryAfter "7"
      ∧ delayFor429 (some "Wed, 21 Oct 2015 07:28:00 GMT") 0 = Delay.backoff 0 :=
  ⟨rfl, by decide, by decide, by decide, by decide,
    (c7_rate_limit_retry true [(("k" : String), Json.null)] "rate limited" none "7"
      "Wed, 21 Oct 2015 07:28:00 GMT" [SendOutcome.http 200 "ok" none] 0 (initState [])
      rfl (by decide) (by decide) (by decide) (by decide)).2.1,
    (c7_rate_limit_retry true [(("k" : String), Json.null)] "rate limited" none "7"
      "Wed, 21 Oct 2015 07:28:00 GMT" [SendOutcome.http 200 "ok" none] 0 (initState [])
      rfl (by decide) (by decide) (by decide) (by decide)).2.2.1⟩

/-! ## Retry scope and single-shot fallback (C8) -/

theorem popFb_fst_resp (snap : Obj) (st : LoopState)
    (hfb : ∀ f ∈ st.fbq, ∃ s b, f = FbOutcome.resp s b) :
    ∃ s b, (popFb snap st).1 = FbOutcome.resp s b := by
  cases hq : st.fbq with
  | nil => exact ⟨200, "", by simp [popFb, hq]⟩
  | cons f rest2 =>
    rcases hfb f (by rw [hq]; exact List.mem_cons_self f rest2) with ⟨s, b, hf⟩
    exact ⟨s, b, by simp [popFb, hq, hf]⟩

theorem nsTimeoutExhaust_fb_count (z : Bool) (snap : Obj) (st : LoopState) :
    (nsTimeoutExhaust z snap st).final.fbPayloads.length ≤ st.fbPayloads.length + 1 := by
  unfold nsTimeoutExhaust
  split
  · split <;> simp [popFb_snd_fbPayloads]
  · exact Nat.le_succ _

theorem runNS_fb_count (z : Bool) (snap : Obj) :
    ∀ (outs : List SendOutcome) (a : Nat) (st : LoopState),
      (∀ f ∈ st.fbq, ∃ s b, f = FbOutcome.resp s b) →
      (runNS z snap outs a st).final.fbPayloads.length ≤ st.fbPayloads.length + 1 := by
  intro outs
  induction outs with
  | nil => intro a st _; exact Nat.le_succ _
  | cons o rest ih =>
    intro a st hfb
    cases o with
    | http status body retryAfter =>
      simp only [runNS]
      split
      · exact ih (a + 1) ⟨st.sends + 1, st.fails, st.succs,
          st.sleeps ++ [delayFor429 retryAfter a], st.fbPayloads, st.fbq⟩ hfb
      · split
        · rcases popFb_fst_resp snap
            ⟨st.sends + 1, st.fails + 1, st.succs, st.sleeps, st.fbPayloads, st.fbq⟩ hfb
            with ⟨s2, b2, hr⟩
          rw [hr]
          simp [popFb_snd_fbPayloads]
        · split
          · exact Nat.le_succ _
          · exact Nat.le_succ _
    | readTimeout =>
      by_cases hz : z = true
      · subst hz
        simp only [runNS]
        split
        · exact ih (a + 1) ⟨st.sends + 1, st.fails + 1, st.succs,
            st.sleeps ++ [Delay.backoff a], st.fbPayloads, st.fbq⟩ hfb
        · exact nsTimeoutExhaust_fb_count true snap
            ⟨st.sends + 1, st.fails + 1, st.succs, st.sleeps, st.fbPayloads, st.fbq⟩
      · have hz2 : z = false := by simpa using hz
        subst hz2
        simp only [runNS]
        split
        · exact ih (a + 1) ⟨st.sends + 1, st.fails, st.succs,
            st.sleeps ++ [Delay.backoff a], st.fbPayloads, st.fbq⟩ hfb
        · exact nsTimeoutExhaust_fb_count false snap
            ⟨st.sends + 1, st.fails, st.succs, st.sleeps, st.fbPayloads, st.fbq⟩
    | connectTimeout =>
      simp only [runNS]
      split
      · exact ih (a + 1) ⟨st.sends + 1, st.fails, st.succs,
          st.sleeps ++ [Delay.backoff a], st.fbPayloads, st.fbq⟩ hfb
      · exact Nat.le_succ _
    | otherError =>
      simp only [runNS]
      split
      · exact ih (a + 1) ⟨st.sends + 1, st.fails, st.succs,
          st.sleeps ++ [Delay.backoff a], st.fbPayloads, st.fbq⟩ hfb
      · exact Nat.le_succ _

theorem runStream_fb_count (z : Bool) (snap : Obj) :
    ∀ (outs : List SendOutcome) (a : Nat) (st : LoopState),
      (∀ f ∈ st.fbq, ∃ s b, f = FbOutcome.resp s b) →
      (runStream z snap outs a st).final.fbPayloads.length ≤ st.fbPayloads.length + 1 := by
  intro outs
  induction outs with
  | nil => intro a st _; exact Nat.le_succ _
  | cons o rest ih =>
    intro a st hfb
    cases o with
    | http status body retryAfter =>
      simp only [runStream]
      split
      · split
        · rcases popFb_fst_resp snap
            ⟨st.sends + 1, st.fails + 1, st.succs, st.sleeps, st.fbPayloads, st.fbq⟩ hfb
            with ⟨s2, b2, hr⟩
          rw [hr]
          split
          · rename_i x s3 b3 heq
            split <;> simp [popFb_snd_fbPayloads]
          · rename_i x heq
            cases heq
          · rename_i x heq
            cases heq
          · rename_i x heq
            cases heq
        · exact Nat.le_succ _
      · split
        · exact Nat.le_succ _
        · exact Nat.le_succ _
    | readTimeout =>
      simp only [runStream]
      split
      · exact ih (a + 1) ⟨st.sends + 1, st.fails, st.succs,
          st.sleeps ++ [Delay.backoff a], st.fbPayloads, st.fbq⟩ hfb
      · exact Nat.le_succ _
    | connectTimeout =>
      simp only [runStream]
      split
      · exact ih (a + 1) ⟨st.sends + 1, st.fails, st.succs,
          st.sleeps ++ [Delay.backoff a], st.fbPayloads, st.fbq⟩ hfb
      · exact Nat.le_succ _
    | otherError =>
      simp only [runStream]
      split
      · exact ih (a + 1) ⟨st.sends + 1, st.fails, st.succs,
          st.sleeps ++ [Delay.backoff a], st.fbPayloads, st.fbq⟩ hfb
      · exact Nat.le_succ _

/-- C8 counterexample: a request routed directly to the primary provider
whose first send raises a read timeout is retried — two sends occur —
although the claim asserts a primary-routed request is sent exactly once
without retries. -/
theorem c8_counterexample :
    (proxy_messages ⟨none, none, none, "glm-5"⟩ (fun _ => false)
        [(("model" : String), Json.str "claude-sonnet-4")]
        [.readTimeout, .http 200 "ok" none] []).target = Target.primary
    ∧ (proxy_messages ⟨none, none, none, "glm-5"⟩ (fun _ => false)
        [(("model" : String), Json.str "claude-sonnet-4")]
        [.readTimeout, .http 200 "ok" none] []).result.final.sends = 2
    ∧ (proxy_messages ⟨none, none, none, "glm-5"⟩ (fun _ => false)
        [(("model" : String), Json.str "claude-sonnet-4")]
        [.readTimeout, .http 200 "ok" none] []).result.response
      = ProxyResponse.upstream 200 "ok" false :=
  ⟨rfl, rfl, rfl⟩

/-- C8 (amended): the retry loop applies to whichever provider the request
was routed to — a primary-routed request retries a read timeout exactly
like a secondary one — while the fallback call to the primary provider
remains single-shot: whenever the scripted fallback outcomes are plain
responses, at most one fallback call is ever made, on the buffered and on
the streaming path alike. -/
theorem c8_retry_scope (z : Bool) (snap : Obj) (rest : List SendOutcome) (a : Nat)
    (st : LoopState) (outs : List SendOutcome)
    (hrest : rest.isEmpty = false)
    (hfb : ∀ f ∈ st.fbq, ∃ s b, f = FbOutcome.resp s b) :
    (runNS false snap (SendOutcome.readTimeout :: rest) a st
      = runNS false snap rest (a + 1)
          { st with sends := st.sends + 1, sleeps := st.sleeps ++ [Delay.backoff a] })
    ∧ (runNS z snap outs a st).final.fbPayloads.length ≤ st.fbPayloads.length + 1
    ∧ (runStream z snap outs a st).final.fbPayloads.length ≤ st.fbPayloads.length + 1 := by
  refine ⟨?_, ?_, ?_⟩
  · simp only [runNS]
    rw [if_pos hrest]
    rfl
  · exact runNS_fb_count z snap outs a st hfb
  · exact runStream_fb_count z snap outs a st hfb

/-- Witness for C8 (amended) at a concrete script with one masked failure
and a plain fallback response. -/
theorem c8_retry_scope_witness :
    ([SendOutcome.http 200 "ok" none] : List SendOutcome).isEmpty = false
      ∧ (∀ f ∈ (initState [FbOutcome.resp 201 "b"]).fbq, ∃ s b, f = FbOutcome.resp s b)
      ∧ (runNS true [(("k" : String), Json.null)]
            [SendOutcome.http 400 "x \"code\":\"500\" x" none] 0
            (initState [FbOutcome.resp 201 "b"])).final.fbPayloads.length
          ≤ (initState [FbOutcome.resp 201 "b"]).fbPayloads.length + 1 :=
  ⟨rfl,
    by
      intro f hf
      rw [show (initState [FbOutcome.resp 201 "b"]).fbq = [FbOutcome.resp 201 "b"] from rfl,
        List.mem_singleton] at hf
      exact ⟨201, "b", hf⟩,
    (c8_retry_scope true [(("k" : String), Json.null)] [SendOutcome.http 200 "ok" none] 0
      (initState [FbOutcome.resp 201 "b"]) [SendOutcome.http 400 "x \"code\":\"500\" x" none]
      rfl
      (by
        intro f hf
        rw [show (initState [FbOutcome.resp 201 "b"]).fbq = [FbOutcome.resp 201 "b"] from rfl,
          List.mem_singleton] at hf
        exact ⟨201, "b", hf⟩)).2.1⟩

/-! ## Sanitizer lemmas -/

theorem hasKey_eq_false_iff (k : String) (o : Obj) :
    hasKey k o = false ↔ lookupKey k o = none := by
  cases hc : lookupKey k o <;> simp [hasKey, hc]

theorem hasKey_eq_true_iff (k : String) (o : Obj) :
    hasKey k o = true ↔ (lookupKey k o).isSome = true := by
  simp [hasKey]

theorem stripCCBlock_idem (b : Json) : stripCCBlock (stripCCBlock b) = stripCCBlock b := by
  cases b <;> simp [stripCCBlock, eraseKey_idem]

theorem isWebSearchTool_stripCCBlock (t : Json) :
    isWebSearchTool (stripCCBlock t) = isWebSearchTool t := by
  cases t with
  | obj f =>
    simp only [stripCCBlock, isWebSearchTool]
    rw [lookupKey_eraseKey_ne (by decide : ("type" : String) ≠ "cache_control")]
  | null => rfl
  | bool b => rfl
  | num n => rfl
  | str s => rfl
  | arr xs => rfl

theorem stripCCMessage_idem (m : Json) :
    stripCCMessage (stripCCMessage m) = stripCCMessage m := by
  cases m with
  | obj f =>
    simp only [stripCCMessage]
    cases hcon : lookupKey "content" (eraseKey "cache_control" f) with
    | some v =>
      cases v with
      | arr blocks =>
        have hmap : (blocks.map stripCCBlock).map stripCCBlock = blocks.map stripCCBlock := by
          rw [List.map_map]
          exact List.map_congr_left fun b _ => stripCCBlock_idem b
        have hcc2 : lookupKey "cache_control"
            (dictSet "content" (Json.arr (blocks.map stripCCBlock))
              (eraseKey "cache_control" f)) = none := by
          rw [lookupKey_dictSet_ne (by decide : ("cache_control" : String) ≠ "content")]
          exact lookupKey_eraseKey_self _ _
        simp only [stripCCMessage]
        rw [eraseKey_of_lookupKey_none hcc2]
        rw [show lookupKey "content"
            (dictSet "content" (Json.arr (blocks.map stripCCBlock)) (eraseKey "cache_control" f))
            = some (Json.arr (blocks.map stripCCBlock)) from lookupKey_dictSet_self _ _ _]
        dsimp only
        rw [hmap, dictSet_dictSet]
      | null =>
        simp only [stripCCMessage]
        rw [eraseKey_idem, hcon]
      | bool b =>
        simp only [stripCCMessage]
        rw [eraseKey_idem, hcon]
      | num n =>
        simp only [stripCCMessage]
        rw [eraseKey_idem, hcon]
      | str s =>
        simp only [stripCCMessage]
        rw [eraseKey_idem, hcon]
      | obj g =>
        simp only [stripCCMessage]
        rw [eraseKey_idem, hcon]
    | none =>
      simp only [stripCCMessage]
      rw [eraseKey_idem, hcon]
  | null => rfl
  | bool b => rfl
  | num n => rfl
  | str s => rfl
  | arr xs => rfl

theorem ccSystemFn_idem : ∀ v v2, ccSystemFn v = some v2 → ccSystemFn v2 = some v2 := by
  intro v v2 h
  cases v with
  | arr blocks =>
    simp [ccSystemFn] at h
    rw [← h]
    simp [ccSystemFn, List.map_map]
    exact fun b _ => stripCCBlock_idem b
  | obj s =>
    simp [ccSystemFn] at h
    rw [← h]
    simp [ccSystemFn, eraseKey_idem]
  | null => simp [ccSystemFn] at h
  | bool b => simp [ccSystemFn] at h
  | num n => simp [ccSystemFn] at h
  | str s => simp [ccSystemFn] at h

theorem ccMessagesFn_idem : ∀ v v2, ccMessagesFn v = some v2 → ccMessagesFn v2 = some v2 := by
  intro v v2 h
  cases v with
  | arr ms =>
    simp [ccMessagesFn] at h
    rw [← h]
    simp [ccMessagesFn, List.map_map]
    exact fun m _ => stripCCMessage_idem m
  | obj s => simp [ccMessagesFn] at h
  | null => simp [ccMessagesFn] at h
  | bool b => simp [ccMessagesFn] at h
  | num n => simp [ccMessagesFn] at h
  | str s => simp [ccMessagesFn] at h

theorem ccToolsFn_idem : ∀ v v2, ccToolsFn v = some v2 → ccToolsFn v2 = some v2 := by
  intro v v2 h
  cases v with
  | arr ts =>
    simp [ccToolsFn] at h
    rw [← h]
    simp [ccToolsFn, List.map_map]
    exact fun b _ => stripCCBlock_idem b
  | obj s => simp [ccToolsFn] at h
  | null => simp [ccToolsFn] at h
  | bool b => simp [ccToolsFn] at h
  | num n => simp [ccToolsFn] at h
  | str s => simp [ccToolsFn] at h

theorem strip_cache_control_idem (o : Obj) :
    strip_cache_control (strip_cache_control o) = strip_cache_control o := by
  unfold strip_cache_control
  rw [updKey_comm (by decide : ("system" : String) ≠ "tools") ccSystemFn ccToolsFn]
  rw [updKey_comm (by decide : ("system" : String) ≠ "messages") ccSystemFn ccMessagesFn]
  rw [updKey_idem ccSystemFn_idem]
  rw [updKey_comm (by decide : ("messages" : String) ≠ "tools") ccMessagesFn ccToolsFn]
  rw [updKey_idem ccMessagesFn_idem]
  rw [updKey_idem ccToolsFn_idem]

theorem lookupKey_updKey_self (k : String) (F : Json → Option Json) (o : Obj) :
    lookupKey k (updKey k F o) = Option.map (fun v => (F v).getD v) (lookupKey k o) := by
  cases hc : lookupKey k o with
  | none => rw [updKey_of_none hc, hc]; rfl
  | some v =>
    cases hf : F v with
    | none => simp [updKey, hc, hf]
    | some v2 => simp [updKey, hc, hf, lookupKey_dictSet_self]

theorem lookupKey_stripThinkingBudget_ne {k : String} (h : k ≠ "thinking") (o : Obj) :
    lookupKey k (stripThinkingBudget o) = lookupKey k o := by
  unfold stripThinkingBudget
  split
  · split
    · exact lookupKey_dictSet_ne h _ _
    · rfl
  · rfl

theorem lookupKey_sanitizeTools_ne {k : String} (h1 : k ≠ "tools") (h2 : k ≠ "tool_choice")
    (o : Obj) : lookupKey k (sanitizeTools o) = lookupKey k o := by
  unfold sanitizeTools
  split
  · dsimp only
    split
    · rw [lookupKey_eraseKey_ne h2, lookupKey_eraseKey_ne h1]
    · repeat' split
      all_goals first
        | rw [lookupKey_eraseKey_ne h2, lookupKey_dictSet_ne h1]
        | rw [lookupKey_dictSet_ne h1]
  · rfl

theorem lookupKey_strip_cache_control_ne {k : String} (hs : k ≠ "system")
    (hm : k ≠ "messages") (ht : k ≠ "tools") (o : Obj) :
    lookupKey k (strip_cache_control o) = lookupKey k o := by
  unfold strip_cache_control
  rw [lookupKey_updKey_ne ht, lookupKey_updKey_ne hm, lookupKey_updKey_ne hs]

theorem lookupKey_stages_ne {k : String}
    (ht : k ≠ "thinking") (he : k ≠ "extended_thinking") (hto : k ≠ "tools")
    (htc : k ≠ "tool_choice") (hs : k ≠ "system") (hm : k ≠ "messages") (o : Obj) :
    lookupKey k (strip_cache_control (sanitizeTools (eraseKey "extended_thinking"
      (stripThinkingBudget o)))) = lookupKey k o := by
  rw [lookupKey_strip_cache_control_ne hs hm hto,
    lookupKey_sanitizeTools_ne hto htc,
    lookupKey_eraseKey_ne he,
    lookupKey_stripThinkingBudget_ne ht]

theorem sanitize_fix_removeKeys (o : Obj) :
    removeKeys zaiUnsupportedKeys (sanitize_for_zai o) = sanitize_for_zai o := by
  apply removeKeys_of_none
  intro k hk
  unfold sanitize_for_zai
  simp [zaiUnsupportedKeys] at hk
  rcases hk with rfl | rfl | rfl | rfl | rfl <;>
    · rw [lookupKey_stages_ne (by decide) (by decide) (by decide) (by decide) (by decide)
        (by decide)]
      exact lookupKey_removeKeys_mem (by decide) o

theorem stripThinkingBudget_eq_self {o : Obj}
    (h : ∀ t, lookupKey "thinking" o = some (Json.obj t) → hasKey "budget_tokens" t = false) :
    stripThinkingBudget o = o := by
  unfold stripThinkingBudget
  cases hth : lookupKey "thinking" o with
  | none => rfl
  | some v =>
    cases v with
    | obj t => simp [h t hth]
    | null => rfl
    | bool b => rfl
    | num n => rfl
    | str s => rfl
    | arr xs => rfl

theorem thinking_clean_after (o : Obj) :
    ∀ t, lookupKey "thinking" (stripThinkingBudget o) = some (Json.obj t) →
      hasKey "budget_tokens" t = false := by
  intro t h
  unfold stripThinkingBudget at h
  cases hth0 : lookupKey "thinking" o with
  | none => simp [hth0] at h
  | some v =>
    cases v with
    | obj t0 =>
      by_cases hb : hasKey "budget_tokens" t0
      · rw [hth0] at h
        simp only [hb, if_true] at h
        rw [lookupKey_dictSet_self] at h
        simp only [Option.some.injEq, Json.obj.injEq] at h
        rw [← h]
        rw [hasKey_eq_false_iff]
        exact lookupKey_eraseKey_self _ _
      · have hb2 : hasKey "budget_tokens" t0 = false := by simpa using hb
        rw [hth0] at h
        simp only [hb2, Bool.false_eq_true, if_false] at h
        rw [hth0] at h
        simp only [Option.some.injEq, Json.obj.injEq] at h
        rw [← h]
        exact hb2
    | null => simp [hth0] at h
    | bool b => simp [hth0] at h
    | num n => simp [hth0] at h
    | str s => simp [hth0] at h
    | arr xs => simp [hth0] at h

theorem sanitize_fix_thinking (o : Obj) :
    stripThinkingBudget (sanitize_for_zai o) = sanitize_for_zai o := by
  apply stripThinkingBudget_eq_self
  intro t h
  have hth : lookupKey "thinking" (sanitize_for_zai o)
      = lookupKey "thinking" (stripThinkingBudget (removeKeys zaiUnsupportedKeys o)) := by
    unfold sanitize_for_zai
    rw [lookupKey_strip_cache_control_ne (by decide) (by decide) (by decide),
      lookupKey_sanitizeTools_ne (by decide) (by decide),
      lookupKey_eraseKey_ne (by decide)]
  rw [hth] at h
  exact thinking_clean_after _ t h

theorem sanitize_fix_ext (o : Obj) :
    eraseKey "extended_thinking" (sanitize_for_zai o) = sanitize_for_zai o := by
  apply eraseKey_of_lookupKey_none
  unfold sanitize_for_zai
  rw [lookupKey_strip_cache_control_ne (by decide) (by decide) (by decide),
    lookupKey_sanitizeTools_ne (by decide) (by decide)]
  exact lookupKey_eraseKey_self _ _

theorem sanitize_fix_cc (o : Obj) :
    strip_cache_control (sanitize_for_zai o) = sanitize_for_zai o :=
  strip_cache_control_idem
    (sanitizeTools (eraseKey "extended_thinking"
      (stripThinkingBudget (removeKeys zaiUnsupportedKeys o))))

theorem sanitizeTools_eq_self_of_none {o : Obj} (hc : lookupKey "tools" o = none) :
    sanitizeTools o = o := by
  simp [sanitizeTools, hc]

theorem sanitizeTools_eq_self_of_non_arr {o : Obj} {v : Json}
    (hc : lookupKey "tools" o = some v) (hv : ∀ ts, v ≠ Json.arr ts) :
    sanitizeTools o = o := by
  cases v with
  | arr ts => exact absurd rfl (hv ts)
  | null => simp [sanitizeTools, hc]
  | bool b => simp [sanitizeTools, hc]
  | num n => simp [sanitizeTools, hc]
  | str s => simp [sanitizeTools, hc]
  | obj f => simp [sanitizeTools, hc]

theorem ccToolsFn_none_of_non_arr {v : Json} (hv : ∀ ts, v ≠ Json.arr ts) :
    ccToolsFn v = none := by
  cases v with
  | arr ts => exact absurd rfl (hv ts)
  | null => rfl
  | bool b => rfl
  | num n => rfl
  | str s => rfl
  | obj f => rfl

theorem lookupKey_tools_strip_cc (o : Obj) :
    lookupKey "tools" (strip_cache_control o)
      = Option.map (fun v => (ccToolsFn v).getD v) (lookupKey "tools" o) := by
  unfold strip_cache_control
  rw [lookupKey_updKey_self,
    lookupKey_updKey_ne (by decide : ("tools" : String) ≠ "messages"),
    lookupKey_updKey_ne (by decide : ("tools" : String) ≠ "system")]

theorem updKey_eq_dictSet {k : String} {f : Json → Option Json} {o : Obj} {v v2 : Json}
    (h1 : lookupKey k o = some v) (h2 : f v = some v2) :
    updKey k f o = dictSet k v2 o := by
  simp [updKey, h1, h2]

theorem strip_cc_tools_facts {w : Obj} {l : List Json}
    (hA : lookupKey "tools" w = some (Json.arr l)) :
    lookupKey "tools" (strip_cache_control w) = some (Json.arr (l.map stripCCBlock))
      ∧ AllEq "tools" (Json.arr (l.map stripCCBlock)) (strip_cache_control w) := by
  have hmid : lookupKey "tools"
      (updKey "messages" ccMessagesFn (updKey "system" ccSystemFn w)) = some (Json.arr l) := by
    rw [lookupKey_updKey_ne (by decide : ("tools" : String) ≠ "messages"),
      lookupKey_updKey_ne (by decide : ("tools" : String) ≠ "system")]
    exact hA
  have hT : strip_cache_control w
      = dictSet "tools" (Json.arr (l.map stripCCBlock))
          (updKey "messages" ccMessagesFn (updKey "system" ccSystemFn w)) := by
    unfold strip_cache_control
    exact updKey_eq_dictSet hmid rfl
  rw [hT]
  exact ⟨lookupKey_dictSet_self _ _ _, allEq_dictSet _ _ _⟩

theorem sanitizeTools_eq_self_of_clean {y : Obj} {ts3 : List Json}
    (h1 : lookupKey "tools" y = some (Json.arr ts3))
    (h2 : ∀ t ∈ ts3, isWebSearchTool t = false)
    (h3 : ts3 ≠ [])
    (h4 : AllEq "tools" (Json.arr ts3) y)
    (h5 : ∀ tcf, lookupKey "tool_choice" y = some (Json.obj tcf) →
        ∀ s, lookupKey "name" tcf = some (Json.str s) → s ≠ "web_search") :
    sanitizeTools y = y := by
  have hfilter : ts3.filter (fun t => !isWebSearchTool t) = ts3 :=
    List.filter_eq_self.mpr (fun t ht => by simp [h2 t ht])
  have hie : ts3.isEmpty = false := by
    cases ts3 with
    | nil => exact absurd rfl h3
    | cons t ts => rfl
  have hset : dictSet "tools" (Json.arr ts3) y = y :=
    dictSet_of_allEq h4 (by rw [h1]; rfl)
  simp only [sanitizeTools, h1]
  rw [hfilter]
  rw [if_neg (by simp [hie] : ¬ts3.isEmpty = true)]
  rw [hset]
  cases htc : lookupKey "tool_choice" y with
  | none => rfl
  | some v =>
    cases v with
    | obj tcf =>
      dsimp only
      cases hname : lookupKey "name" tcf with
      | none => rfl
      | some nv =>
        cases nv with
        | str s => exact if_neg (h5 tcf htc s hname)
        | null => rfl
        | bool b => rfl
        | num n => rfl
        | arr xs => rfl
        | obj g => rfl
    | null => rfl
    | bool b => rfl
    | num n => rfl
    | str s => rfl
    | arr xs => rfl

theorem clean_apply {w : Obj} {F : List Json}
    (hA : lookupKey "tools" w = some (Json.arr F))
    (hws : ∀ t ∈ F, isWebSearchTool t = false)
    (hne : F ≠ [])
    (h5 : ∀ tcf, lookupKey "tool_choice" w = some (Json.obj tcf) →
        ∀ s, lookupKey "name" tcf = some (Json.str s) → s ≠ "web_search") :
    sanitizeTools (strip_cache_control w) = strip_cache_control w := by
  rcases strip_cc_tools_facts hA with ⟨hY1, hY3⟩
  apply sanitizeTools_eq_self_of_clean hY1
  · intro t ht
    rcases List.mem_map.mp ht with ⟨t0, ht0, rfl⟩
    rw [isWebSearchTool_stripCCBlock]
    exact hws t0 ht0
  · intro h
    exact hne (List.map_eq_nil_iff.mp h)
  · exact hY3
  · intro tcf h s hs
    rw [lookupKey_strip_cache_control_ne (by decide) (by decide) (by decide)] at h
    exact h5 tcf h s hs

theorem sanitizeTools_strip_fix_aux {z : Obj} {v : Json}
    (hc : lookupKey "tools" z = some v) (hv : ∀ ts, v ≠ Json.arr ts) :
    sanitizeTools (strip_cache_control (sanitizeTools z))
      = strip_cache_control (sanitizeTools z) := by
  rw [sanitizeTools_eq_self_of_non_arr hc hv]
  have h2 : lookupKey "tools" (strip_cache_control z) = some v := by
    rw [lookupKey_tools_strip_cc, hc]
    simp [ccToolsFn_none_of_non_arr hv]
  exact sanitizeTools_eq_self_of_non_arr h2 hv

theorem sanitizeTools_strip_fix (z : Obj) :
    sanitizeTools (strip_cache_control (sanitizeTools z))
      = strip_cache_control (sanitizeTools z) := by
  cases hc : lookupKey "tools" z with
  | none =>
    rw [sanitizeTools_eq_self_of_none hc]
    apply sanitizeTools_eq_self_of_none
    rw [lookupKey_tools_strip_cc, hc]
    rfl
  | some v =>
    cases v with
    | null => exact sanitizeTools_strip_fix_aux hc (fun ts h => nomatch h)
    | bool b => exact sanitizeTools_strip_fix_aux hc (fun ts h => nomatch h)
    | num n => exact sanitizeTools_strip_fix_aux hc (fun ts h => nomatch h)
    | str s => exact sanitizeTools_strip_fix_aux hc (fun ts h => nomatch h)
    | obj f => exact sanitizeTools_strip_fix_aux hc (fun ts h => nomatch h)
    | arr ts =>
      by_cases hemp : (ts.filter (fun t => !isWebSearchTool t)).isEmpty = true
      · have h4 : sanitizeTools z = eraseKey "tool_choice" (eraseKey "tools" z) := by
          simp [sanitizeTools, hc, hemp]
        rw [h4]
        apply sanitizeTools_eq_self_of_none
        rw [lookupKey_tools_strip_cc,
          lookupKey_eraseKey_ne (by decide : ("tools" : String) ≠ "tool_choice"),
          lookupKey_eraseKey_self]
        rfl
      · have hempf : (ts.filter (fun t => !isWebSearchTool t)).isEmpty = false := by
          simpa using hemp
        have hFne : ts.filter (fun t => !isWebSearchTool t) ≠ [] := by
          intro h
          rw [h] at hempf
          simp at hempf
        have hFws : ∀ t ∈ ts.filter (fun t => !isWebSearchTool t),
            isWebSearchTool t = false := by
          intro t ht
          simpa using List.of_mem_filter ht
        have htco2 : lookupKey "tool_choice"
            (dictSet "tools" (Json.arr (ts.filter (fun t => !isWebSearchTool t))) z)
            = lookupKey "tool_choice" z :=
          lookupKey_dictSet_ne (by decide) _ _
        cases htc : lookupKey "tool_choice" z with
        | none =>
          have h4 : sanitizeTools z
              = dictSet "tools" (Json.arr (ts.filter (fun t => !isWebSearchTool t))) z := by
            simp [sanitizeTools, hc, hempf, htco2, htc]
          rw [h4]
          apply clean_apply (lookupKey_dictSet_self _ _ _) hFws hFne
          intro tcf h
          rw [lookupKey_dictSet_ne (by decide), htc] at h
          cases h
        | some tv =>
          cases tv with
          | obj tcf0 =>
            cases hname : lookupKey "name" tcf0 with
            | none =>
              have h4 : sanitizeTools z
                  = dictSet "tools" (Json.arr (ts.filter (fun t => !isWebSearchTool t))) z := by
                simp [sanitizeTools, hc, hempf, htco2, htc, hname]
              rw [h4]
              apply clean_apply (lookupKey_dictSet_self _ _ _) hFws hFne
              intro tcf h s hs
              rw [lookupKey_dictSet_ne (by decide), htc] at h
              simp only [Option.some.injEq, Json.obj.injEq] at h
              subst h
              rw [hname] at hs
              cases hs
            | some nv =>
              cases nv with
              | str s0 =>
                by_cases hws0 : s0 = "web_search"
                · have h4 : sanitizeTools z
                      = eraseKey "tool_choice"
                          (dictSet "tools"
                            (Json.arr (ts.filter (fun t => !isWebSearchTool t))) z) := by
                    simp [sanitizeTools, hc, hempf, htco2, htc, hname, hws0]
                  rw [h4]
                  apply clean_apply
                    (by
                      rw [lookupKey_eraseKey_ne (by decide)]
                      exact lookupKey_dictSet_self _ _ _)
                    hFws hFne
                  intro tcf h
                  rw [lookupKey_eraseKey_self] at h
                  cases h
                · have h4 : sanitizeTools z
                      = dictSet "tools"
                          (Json.arr (ts.filter (fun t => !isWebSearchTool t))) z := by
                    simp [sanitizeTools, hc, hempf, htco2, htc, hname, hws0]
                  rw [h4]
                  apply clean_apply (lookupKey_dictSet_self _ _ _) hFws hFne
                  intro tcf h s hs
                  rw [lookupKey_dictSet_ne (by decide), htc] at h
                  simp only [Option.some.injEq, Json.obj.injEq] at h
                  subst h
                  rw [hname] at hs
                  simp only [Option.some.injEq, Json.str.injEq] at hs
                  rw [← hs]
                  exact hws0
              | null =>
                have h4 : sanitizeTools z
                    = dictSet "tools" (Json.arr (ts.filter (fun t => !isWebSearchTool t))) z := by
                  simp [sanitizeTools, hc, hempf, htco2, htc, hname]
                rw [h4]
                apply clean_apply (lookupKey_dictSet_self _ _ _) hFws hFne
                intro tcf h s hs
                rw [lookupKey_dictSet_ne (by decide), htc] at h
                simp only [Option.some.injEq, Json.obj.injEq] at h
                subst h
                rw [hname] at hs
                cases hs
              | bool b =>
                have h4 : sanitizeTools z
                    = dictSet "tools" (Json.arr (ts.filter (fun t => !isWebSearchTool t))) z := by
                  simp [sanitizeTools, hc, hempf, htco2, htc, hname]
                rw [h4]
                apply clean_apply (lookupKey_dictSet_self _ _ _) hFws hFne
                intro tcf h s hs
                rw [lookupKey_dictSet_ne (by decide), htc] at h
                simp only [Option.some.injEq, Json.obj.injEq] at h
                subst h
                rw [hname] at hs
                cases hs
              | num n =>
                have h4 : sanitizeTools z
                    = dictSet "tools" (Json.arr (ts.filter (fun t => !isWebSearchTool t))) z := by
                  simp [sanitizeTools, hc, hempf, htco2, htc, hname]
                rw [h4]
                apply clean_apply (lookupKey_dictSet_self _ _ _) hFws hFne
                intro tcf h s hs
                rw [lookupKey_dictSet_ne (by decide), htc] at h
                simp only [Option.some.injEq, Json.obj.injEq] at h
                subst h
                rw [hname] at hs
                cases hs
              | arr xs =>
                have h4 : sanitizeTools z
                    = dictSet "tools" (Json.arr (ts.filter (fun t => !isWebSearchTool t))) z := by
                  simp [sanitizeTools, hc, hempf, htco2, htc, hname]
                rw [h4]
                apply clean_apply (lookupKey_dictSet_self _ _ _) hFws hFne
                intro tcf h s hs
                rw [lookupKey_dictSet_ne (by decide), htc] at h
                simp only [Option.some.injEq, Json.obj.injEq] at h
                subst h
                rw [hname] at hs
                cases hs
              | obj g =>
                have h4 : sanitizeTools z
                    = dictSet "tools" (Json.arr (ts.filter (fun t => !isWebSearchTool t))) z := by
                  simp [sanitizeTools, hc, hempf, htco2, htc, hname]
                rw [h4]
                apply clean_apply (lookupKey_dictSet_self _ _ _) hFws hFne
                intro tcf h s hs
                rw [lookupKey_dictSet_ne (by decide), htc] at h
                simp only [Option.some.injEq, Json.obj.injEq] at h
                subst h
                rw [hname] at hs
                cases hs
          | null =>
            have h4 : sanitizeTools z
                = dictSet "tools" (Json.arr (ts.filter (fun t => !isWebSearchTool t))) z := by
              simp [sanitizeTools, hc, hempf, htco2, htc]
            rw [h4]
            apply clean_apply (lookupKey_dictSet_self _ _ _) hFws hFne
            intro tcf h
            rw [lookupKey_dictSet_ne (by decide), htc] at h
            cases h
          | bool b =>
            have h4 : sanitizeTools z
                = dictSet "tools" (Json.arr (ts.filter (fun t => !isWebSearchTool t))) z := by
              simp [sanitizeTools, hc, hempf, htco2, htc]
            rw [h4]
            apply clean_apply (lookupKey_dictSet_self _ _ _) hFws hFne
            intro tcf h
            rw [lookupKey_dictSet_ne (by decide), htc] at h
            cases h
          | num n =>
            have h4 : sanitizeTools z
                = dictSet "tools" (Json.arr (ts.filter (fun t => !isWebSearchTool t))) z := by
              simp [sanitizeTools, hc, hempf, htco2, htc]
            rw [h4]
            apply clean_apply (lookupKey_dictSet_self _ _ _) hFws hFne
            intro tcf h
            rw [lookupKey_dictSet_ne (by decide), htc] at h
            cases h
          | str s1 =>
            have h4 : sanitizeTools z
                = dictSet "tools" (Json.arr (ts.filter (fun t => !isWebSearchTool t))) z := by
              simp [sanitizeTools, hc, hempf, htco2, htc]
            rw [h4]
            apply clean_apply (lookupKey_dictSet_self _ _ _) hFws hFne
            intro tcf h
            rw [lookupKey_dictSet_ne (by decide), htc] at h
            cases h
          | arr xs =>
            have h4 : sanitizeTools z
                = dictSet "tools" (Json.arr (ts.filter (fun t => !isWebSearchTool t))) z := by
              simp [sanitizeTools, hc, hempf, htco2, htc]
            rw [h4]
            apply clean_apply (lookupKey_dictSet_self _ _ _) hFws hFne
            intro tcf h
            rw [lookupKey_dictSet_ne (by decide), htc] at h
            cases h

theorem sanitize_fix_tools (o : Obj) :
    sanitizeTools (sanitize_for_zai o) = sanitize_for_zai o :=
  sanitizeTools_strip_fix
    (eraseKey "extended_thinking" (stripThinkingBudget (removeKeys zaiUnsupportedKeys o)))

/-- C5: the sanitizer is idempotent — re-applying `sanitize_for_zai` to its
own output removes nothing further: no top-level key, no
`thinking.budget_tokens`, no web-search tool, no `tool_choice`, and no
`cache_control` annotation. -/
theorem c5_sanitizer_idempotent (o : Obj) :
    sanitize_for_zai (sanitize_for_zai o) = sanitize_for_zai o := by
  conv_lhs =>
    rw [show sanitize_for_zai (sanitize_for_zai o)
      = strip_cache_control (sanitizeTools (eraseKey "extended_thinking"
          (stripThinkingBudget (removeKeys zaiUnsupportedKeys (sanitize_for_zai o)))))
      from rfl]
  rw [sanitize_fix_removeKeys, sanitize_fix_thinking, sanitize_fix_ext, sanitize_fix_tools,
    sanitize_fix_cc]

/-- C10 counterexample: on the payload
`{"tools": [], "tool_choice": "auto", "model": "m"}` the tools list contains no
web-search-typed tool at all, yet sanitization deletes the `tool_choice` key
(`proxy.py:343` pops `tool_choice` whenever the filtered tools list is empty),
so `tool_choice` is not only removed as a dependent of a web-search tool and
the claimed frame is violated. -/
theorem c10_counterexample :
    lookupKey "tools"
        [("tools", Json.arr []), ("tool_choice", Json.str "auto"), ("model", Json.str "m")]
      = some (Json.arr [])
    ∧ lookupKey "tool_choice"
        [("tools", Json.arr []), ("tool_choice", Json.str "auto"), ("model", Json.str "m")]
      = some (Json.str "auto")
    ∧ lookupKey "tool_choice" (sanitize_for_zai
        [("tools", Json.arr []), ("tool_choice", Json.str "auto"), ("model", Json.str "m")])
      = none :=
  ⟨rfl, rfl, rfl⟩

/-- C10 (amended): sanitization may remove or rewrite only the eleven touched
top-level keys — the five fixed unsupported keys, `thinking`,
`extended_thinking`, `tools`, `tool_choice`, `system` and `messages` (the
latter two only to strip `cache_control`); every top-level key outside this
set, including `model`, `stream`, `max_tokens` and unknown fields, is mapped
to exactly the same value by `sanitize_for_zai`. -/
theorem c10_sanitize_frame (o : Obj) (k : String) (hk : k ∉ sanitizeTouchedKeys) :
    lookupKey k (sanitize_for_zai o) = lookupKey k o := by
  simp only [sanitizeTouchedKeys, List.mem_cons, List.not_mem_nil, or_false, not_or] at hk
  obtain ⟨h1, h2, h3, h4, h5, h6, h7, h8, h9, h10, h11⟩ := hk
  unfold sanitize_for_zai
  rw [lookupKey_stages_ne h6 h7 h8 h9 h10 h11,
    lookupKey_removeKeys_ne (by simp [zaiUnsupportedKeys, h1, h2, h3, h4, h5])]

theorem c10_sanitize_frame_witness :
    ("model" : String) ∉ sanitizeTouchedKeys
    ∧ lookupKey "model"
        (sanitize_for_zai [("model", Json.str "glm-4.6"), ("stream", Json.bool true)])
      = lookupKey "model" [("model", Json.str "glm-4.6"), ("stream", Json.bool true)] :=
  ⟨by decide, c10_sanitize_frame [("model", Json.str "glm-4.6"), ("stream", Json.bool true)]
    "model" (by decide)⟩

end Proxy
